import Mathlib

/-!
Verification of the picoforge FIDO core (src/src-tauri/src/fido/mod.rs and
src/src-tauri/src/error.rs) against its natural-language specification.

The Rust code is shallowly embedded: machine integers become `Nat`/`Int`
with explicit wrap-around (`% 2^w`) where a cast occurs, Rust `Result`
becomes `Except`, `Option` stays `Option`, and Rust `String` values that
are only moved around byte-wise are modelled as their UTF-8 byte lists
(`List Nat`).  External collaborators (the `ctap_hid_fido2` FIDO library,
the HID transport in `fido/hid.rs`, the `serde_cbor_2` codec, the `hex`
crate and `u16::from_str_radix`) are modelled explicitly; each such
definition carries a doc comment saying what it models.  Device behaviour
is supplied through explicit environment records so that each top-level
operation becomes a pure function of its inputs and the device's answers.
-/

/- ===================== Hex helpers (the `hex` crate and `{:04X}`) ===================== -/

/-- Lower-case hex digit for a value `n < 16` (models the `hex` crate's digit table). -/
def hexDigitLower (n : Nat) : Char :=
  if n < 10 then Char.ofNat (48 + n) else Char.ofNat (87 + n)

/-- Upper-case hex digit for a value `n < 16`. -/
def hexDigitUpper (n : Nat) : Char :=
  if n < 10 then Char.ofNat (48 + n) else Char.ofNat (55 + n)

/-- Models `hex::encode`: each byte becomes two lower-case hex characters. -/
def hexEncode (bs : List Nat) : String :=
  String.mk (bs.flatMap (fun b => [hexDigitLower (b / 16 % 16), hexDigitLower (b % 16)]))

/-- Models `hex::encode_upper`: each byte becomes two upper-case hex characters. -/
def hexEncodeUpper (bs : List Nat) : String :=
  String.mk (bs.flatMap (fun b => [hexDigitUpper (b / 16 % 16), hexDigitUpper (b % 16)]))

/-- Upper-case hex digits of `n`, most significant first (`[]` for `0`); the
first argument is fuel, any fuel of at least `n` is enough. -/
def natHexDigitsAux : Nat → Nat → List Char
  | 0, _ => []
  | fuel + 1, n =>
    if n = 0 then [] else natHexDigitsAux fuel (n / 16) ++ [hexDigitUpper (n % 16)]

/-- Upper-case hex digits of `n`, most significant first (`[]` for `0`). -/
def natHexDigits (n : Nat) : List Char := natHexDigitsAux n n

/-- Models Rust's `format!("{:04X}", n)`: upper-case hex, left-padded with zeros to width 4. -/
def format04X (n : Nat) : String :=
  let ds := if n = 0 then ['0'] else natHexDigits n
  String.mk (List.replicate (4 - ds.length) '0' ++ ds)

/-- Value of one hex character, or `none` (models the `hex` crate's digit check). -/
def hexCharVal (c : Char) : Option Nat :=
  if 48 ≤ c.toNat ∧ c.toNat ≤ 57 then some (c.toNat - 48)
  else if 97 ≤ c.toNat ∧ c.toNat ≤ 102 then some (c.toNat - 87)
  else if 65 ≤ c.toNat ∧ c.toNat ≤ 70 then some (c.toNat - 55)
  else none

/-- Models `hex::decode` on the character list: fails on an odd-length string or
on any non-hex character, otherwise yields the byte list. -/
def hexDecodeChars : List Char → Option (List Nat)
  | [] => some []
  | [_] => none
  | a :: b :: rest =>
    match hexCharVal a, hexCharVal b with
    | some hi, some lo =>
      match hexDecodeChars rest with
      | some bs => some ((hi * 16 + lo) :: bs)
      | none => none
    | _, _ => none

/-- Models `hex::decode` on a Rust string. -/
def hexDecode (s : String) : Option (List Nat) :=
  hexDecodeChars s.toList

/- ===================== The program's error type (src/error.rs) ===================== -/

/-- Embeds `PFError` from `src/src-tauri/src/error.rs`.  The source enum declares
exactly the variants `Pcsc`, `Io` and `Device` (the opaque `pcsc::Error` payload is
modelled by its rendered message).  The extra `NoDevice` variant is `Modelled from
the spec:` `fido/mod.rs` pattern-matches and returns `PFError::NoDevice` and the
spec calls `NoDevice` a distinguished error kind, but `src/error.rs` as given does
not declare it; it is added here so that `read_device_details` can be embedded at
all (see the C3 analysis). -/
inductive PFError where
  | Pcsc (msg : String)
  | Io (msg : String)
  | Device (msg : String)
  | NoDevice
  deriving DecidableEq

/- ===================== Credential manager (delete_credential) ===================== -/

/-- Embeds `ctap_hid_fido2::public_key_credential_descriptor::PublicKeyCredentialDescriptor`
as used by `delete_credential` (only the two fields the code sets). -/
structure PublicKeyCredentialDescriptor where
  ctype : String
  id : List Nat
  deriving DecidableEq

/-- Observable device actions of the credential-manager functions, recorded in
order: `connect` is the `FidoKeyHidFactory::create` attempt (the device is
contacted), `deleteCred` is the credential-management deletion exchange. -/
inductive DevAction where
  | connect
  | deleteCred (d : PublicKeyCredentialDescriptor)
  deriving DecidableEq

/-- Environment for `delete_credential`: the outcome of connecting to the FIDO
device and the device's answer to a deletion request.  Errors of the external
library are modelled by their rendered (`{:?}`) strings. -/
structure DeleteEnv where
  create : Except String Unit
  delete : Option String → PublicKeyCredentialDescriptor → Except String Unit

/-- Embeds `delete_credential` (fido/mod.rs lines 131-149).  The Rust code first
calls `FidoKeyHidFactory::create`, then `hex::decode`s the credential id, builds
the descriptor and issues the deletion.  The second component is the ordered
trace of device actions attempted. -/
def delete_credential (env : DeleteEnv) (pin credential_id_hex : String) :
    Except String String × List DevAction :=
  match env.create with
  | .error e => (.error ("Failed to connect to FIDO device: " ++ e), [.connect])
  | .ok _ =>
    match hexDecode credential_id_hex with
    | none => (.error "Invalid Credential ID Hex string", [.connect])
    | some cred_id_bytes =>
      let descriptor : PublicKeyCredentialDescriptor :=
        { ctype := "public-key", id := cred_id_bytes }
      match env.delete (some pin) descriptor with
      | .error e =>
        (.error ("Failed to delete credential: " ++ e), [.connect, .deleteCred descriptor])
      | .ok _ =>
        (.ok "Credential deleted successfully", [.connect, .deleteCred descriptor])

/-- An environment in which the device connection and the deletion both succeed. -/
def delEnvOk : DeleteEnv :=
  { create := .ok (), delete := fun _ _ => .ok () }

/-- C1 counterexample: with a connectable device and the non-hex id `"zz"`,
`delete_credential` does return the distinguished invalid-hex error, but its
device-action trace is non-empty — the device was contacted (opened) before the
hex id was validated, contradicting the claim as stated. -/
theorem delete_credential_opens_device_first :
    (delete_credential delEnvOk "1234" "zz").1 = .error "Invalid Credential ID Hex string" ∧
    (delete_credential delEnvOk "1234" "zz").2 ≠ [] := by
  constructor
  · rfl
  · decide

/-- C1 (amended): for every non-hex credential-id string, `delete_credential`
never issues the deletion exchange, and — provided the device connection
succeeds — it fails with the distinguished invalid-hex error; however the
device connection itself is attempted before the hex id is validated. -/
theorem delete_credential_invalid_hex (env : DeleteEnv) (pin s : String)
    (hbad : hexDecode s = none) :
    (∀ d, DevAction.deleteCred d ∉ (delete_credential env pin s).2) ∧
    (env.create = .ok () → (delete_credential env pin s).1 =
      .error "Invalid Credential ID Hex string") := by
  constructor
  · intro d
    unfold delete_credential
    match h : env.create with
    | .error e => simp
    | .ok _ => simp [hbad]
  · intro hc
    unfold delete_credential
    rw [hc, hbad]

/-- C1 witness: the amended theorem applied at the concrete non-hex input `"zz"`. -/
theorem delete_credential_invalid_hex_witness :
    (∀ d, DevAction.deleteCred d ∉ (delete_credential delEnvOk "p" "zz").2) ∧
    (delEnvOk.create = .ok () → (delete_credential delEnvOk "p" "zz").1 =
      .error "Invalid Credential ID Hex string") :=
  delete_credential_invalid_hex delEnvOk "p" "zz" (by decide)

/- ===================== Credential manager (get_credentials) ===================== -/

/-- One relying party as returned by `credential_management_enumerate_rps`:
the RP-id hash used for the per-RP enumeration plus the RP entity fields read
by the code. -/
structure RpEntry where
  rpid_hash : List Nat
  id : String
  name : String

/-- One credential as returned by `credential_management_enumerate_credentials`:
exactly the descriptor/user-entity fields the code reads. -/
structure CredEntry where
  cred_id : List Nat
  user_name : String
  user_display_name : String
  user_id : List Nat

/-- Embeds `crate::types::StoredCredential` (its `types.rs` is not part of src/;
the fields are those the spec's data model lists and the code populates). -/
structure StoredCredential where
  credential_id : String
  rp_id : String
  rp_name : String
  user_name : String
  user_display_name : String
  user_id : String
  deriving DecidableEq

/-- Environment for `get_credentials`: connection outcome, RP enumeration and
per-RP credential enumeration answers of the FIDO library. -/
structure CredEnv where
  create : Except String Unit
  rps : Option String → Except String (List RpEntry)
  creds : Option String → List Nat → Except String (List CredEntry)

/-- The `StoredCredential` record built for credential `c` of relying party `rp`
(fido/mod.rs lines 117-124). -/
def toStored (rp : RpEntry) (c : CredEntry) : StoredCredential :=
  { credential_id := hexEncode c.cred_id
    rp_id := rp.id
    rp_name := rp.name
    user_name := c.user_name
    user_display_name := c.user_display_name
    user_id := hexEncode c.user_id }

/-- The enumeration loop of `get_credentials` (fido/mod.rs lines 106-126): for
each RP in order, enumerate its credentials; the first failure aborts the whole
call with a message identifying that RP. -/
def collectCreds (env : CredEnv) (pin : String) : List RpEntry → Except String (List StoredCredential)
  | [] => .ok []
  | rp :: rest =>
    match env.creds (some pin) rp.rpid_hash with
    | .error e => .error ("Failed to enumerate credentials for RP " ++ rp.id ++ ": " ++ e)
    | .ok cs =>
      match collectCreds env pin rest with
      | .error e2 => .error e2
      | .ok tail => .ok (cs.map (toStored rp) ++ tail)

/-- Embeds `get_credentials` (fido/mod.rs lines 95-129). -/
def get_credentials (env : CredEnv) (pin : String) : Except String (List StoredCredential) :=
  match env.create with
  | .error e => .error ("Failed to connect to FIDO device: " ++ e)
  | .ok _ =>
    match env.rps (some pin) with
    | .error e => .error ("Failed to enumerate Relying Parties: " ++ e)
    | .ok rps => collectCreds env pin rps

/-- The success case of the loop: if every RP's enumeration succeeds, the result
is the in-order concatenation of each RP's credentials. -/
theorem collectCreds_ok (env : CredEnv) (pin : String) (f : RpEntry → List CredEntry) :
    ∀ rps : List RpEntry, (∀ rp ∈ rps, env.creds (some pin) rp.rpid_hash = .ok (f rp)) →
      collectCreds env pin rps = .ok (rps.flatMap (fun rp => (f rp).map (toStored rp))) := by
  intro rps
  induction rps with
  | nil => intro _; rfl
  | cons rp rest ih =>
    intro h
    have hrp := h rp (List.mem_cons_self rp rest)
    have hrest := ih (fun r hr => h r (List.mem_cons_of_mem rp hr))
    simp only [collectCreds, hrp, hrest, List.flatMap_cons]

/-- The abort case of the loop: if every RP before `rp` succeeds and `rp`'s
enumeration fails, the loop returns the error naming `rp`. -/
theorem collectCreds_abort (env : CredEnv) (pin : String) (rp : RpEntry)
    (suf : List RpEntry) (e : String)
    (herr : env.creds (some pin) rp.rpid_hash = .error e) :
    ∀ pre : List RpEntry, (∀ r ∈ pre, (env.creds (some pin) r.rpid_hash).isOk) →
      collectCreds env pin (pre ++ rp :: suf) =
        .error ("Failed to enumerate credentials for RP " ++ rp.id ++ ": " ++ e) := by
  intro pre
  induction pre with
  | nil => intro _; simp only [List.nil_append, collectCreds, herr]
  | cons r rest ih =>
    intro hpre
    have hr0 := hpre r (List.mem_cons_self r rest)
    match hcr : env.creds (some pin) r.rpid_hash with
    | .error e0 => rw [hcr] at hr0; exact absurd hr0 (by simp [Except.isOk, Except.toBool])
    | .ok cs =>
      have htail := ih (fun x hx => hpre x (List.mem_cons_of_mem r hx))
      simp only [List.cons_append, collectCreds, hcr, List.append_eq, htail]

/-- C9: `get_credentials` returns the concatenation, in RP enumeration order, of
each RP's credentials in their own order; and if enumerating credentials of some
RP fails (all earlier RPs having succeeded), the whole call returns an error
naming that RP's id, with no partial result. -/
theorem get_credentials_order_and_abort (env : CredEnv) (pin : String) :
    (∀ (rps : List RpEntry) (f : RpEntry → List CredEntry),
      env.create = .ok () → env.rps (some pin) = .ok rps →
      (∀ rp ∈ rps, env.creds (some pin) rp.rpid_hash = .ok (f rp)) →
      get_credentials env pin = .ok (rps.flatMap (fun rp => (f rp).map (toStored rp)))) ∧
    (∀ (pre : List RpEntry) (rp : RpEntry) (suf : List RpEntry) (e : String),
      env.create = .ok () → env.rps (some pin) = .ok (pre ++ rp :: suf) →
      (∀ r ∈ pre, (env.creds (some pin) r.rpid_hash).isOk) →
      env.creds (some pin) rp.rpid_hash = .error e →
      get_credentials env pin =
        .error ("Failed to enumerate credentials for RP " ++ rp.id ++ ": " ++ e)) := by
  constructor
  · intro rps f hc hr hok
    unfold get_credentials
    rw [hc, hr]
    exact collectCreds_ok env pin f rps hok
  · intro pre rp suf e hc hr hpre herr
    unfold get_credentials
    rw [hc, hr]
    exact collectCreds_abort env pin rp suf e herr pre hpre

/-- A concrete two-RP scenario: RP `a.com` (hash `[1]`) holds one credential,
RP `b.org` (hash `[2]`) holds two. -/
def credEnvScenario : CredEnv :=
  { create := .ok ()
    rps := fun _ => .ok [{ rpid_hash := [1], id := "a.com", name := "A" },
                         { rpid_hash := [2], id := "b.org", name := "B" }]
    creds := fun _ h =>
      if h = [1] then
        .ok [{ cred_id := [10], user_name := "u1", user_display_name := "U1", user_id := [1] }]
      else
        .ok [{ cred_id := [11], user_name := "u2", user_display_name := "U2", user_id := [2] },
             { cred_id := [12], user_name := "u3", user_display_name := "U3", user_id := [3] }] }

/-- C9 witness: the spec's scenario — two relying parties with 1 and 2
credentials yield a 3-element ordered sequence preserving RP iteration order. -/
theorem get_credentials_order_and_abort_witness :
    get_credentials credEnvScenario "1234" =
      .ok [{ credential_id := "0a", rp_id := "a.com", rp_name := "A",
             user_name := "u1", user_display_name := "U1", user_id := "01" },
           { credential_id := "0b", rp_id := "b.org", rp_name := "B",
             user_name := "u2", user_display_name := "U2", user_id := "02" },
           { credential_id := "0c", rp_id := "b.org", rp_name := "B",
             user_name := "u3", user_display_name := "U3", user_id := "03" }] := by
  have h := (get_credentials_order_and_abort credEnvScenario "1234").1
    [{ rpid_hash := [1], id := "a.com", name := "A" },
     { rpid_hash := [2], id := "b.org", name := "B" }]
    (fun rp =>
      if rp.rpid_hash = [1] then
        [{ cred_id := [10], user_name := "u1", user_display_name := "U1", user_id := [1] }]
      else
        [{ cred_id := [11], user_name := "u2", user_display_name := "U2", user_id := [2] },
         { cred_id := [12], user_name := "u3", user_display_name := "U3", user_id := [3] }])
    rfl rfl (by
      intro rp hrp
      simp only [List.mem_cons, List.mem_singleton] at hrp
      rcases hrp with h1 | h2 | h3
      · subst h1; rfl
      · subst h2; rfl
      · cases h3)
  rw [h]
  rfl

/- ===================== Config TLV encoder (write_config, fido/mod.rs 345-423) ===================== -/

/-- Models `u16::from_str_radix(s, 16)`: an optional leading `+`, then at least
one hex digit (either case); fails on any other character or when the value
does not fit in a `u16`. -/
def u16FromHex (s : String) : Option Nat :=
  let cs := match s.toList with
    | '+' :: rest => rest
    | cs => cs
  if cs.isEmpty then none
  else
    match cs.foldlM (fun acc c => (hexCharVal c).map fun d => acc * 16 + d) 0 with
    | some n => if n < 65536 then some n else none
    | none => none

/-- Embeds `crate::types::AppConfigInput` (its `types.rs` is not part of src/;
the fields are the ones `write_config` reads, every one optional — sparse
update).  `vid`/`pid` are hex strings as in the source; `product_name` is the
Rust string's UTF-8 byte list; `u8` fields are `Nat`s (bounded by
`validInput`). -/
structure AppConfigInput where
  vid : Option String := none
  pid : Option String := none
  led_gpio : Option Nat := none
  led_brightness : Option Nat := none
  led_dimmable : Option Bool := none
  led_steady : Option Bool := none
  power_cycle_on_reset : Option Bool := none
  touch_timeout : Option Nat := none
  enable_secp256k1 : Option Bool := none
  product_name : Option (List Nat) := none
  led_driver : Option Nat := none

/-- The inputs on which the embedding is exact: `u8` fields hold byte values
(guaranteed by the Rust types), hex strings parse when both are given (the
combined tag needs both), and the product name's `len + 1` fits the single
TLV length byte (otherwise the `as u8` cast in the source truncates it). -/
def validInput (c : AppConfigInput) : Bool :=
  (match c.vid, c.pid with
   | some vs, some ps => (u16FromHex vs).isSome && (u16FromHex ps).isSome
   | none, none => true
   | _, _ => false) &&
  c.led_gpio.all (fun g => decide (g < 256)) &&
  c.led_brightness.all (fun b => decide (b < 256)) &&
  c.touch_timeout.all (fun t => decide (t < 256)) &&
  c.led_driver.all (fun d => decide (d < 256)) &&
  c.product_name.all (fun nb => decide (nb.length + 1 < 256) && nb.all (fun b => decide (b < 256)))

/-- The options bitfield (PHY_OPTS) value accumulated at fido/mod.rs 384-393:
bit `0x02` for dimmable, bit `0x04` for power-cycle-on-reset disabled, bit
`0x08` for steady. -/
def optsVal (c : AppConfigInput) : Nat :=
  (if c.led_dimmable.getD false then 0x02 else 0) |||
  (if !(c.power_cycle_on_reset.getD true) then 0x04 else 0) |||
  (if c.led_steady.getD false then 0x08 else 0)

/-- PHY_LED_GPIO entry bytes (tag 0x04). -/
def gpioChunk (c : AppConfigInput) : List Nat :=
  match c.led_gpio with
  | some gpio => [0x04, 1, gpio]
  | none => []

/-- PHY_LED_BTNESS entry bytes (tag 0x05). -/
def brightnessChunk (c : AppConfigInput) : List Nat :=
  match c.led_brightness with
  | some brightness => [0x05, 1, brightness]
  | none => []

/-- PHY_UP_BUTTON (touch timeout) entry bytes (tag 0x08). -/
def timeoutChunk (c : AppConfigInput) : List Nat :=
  match c.touch_timeout with
  | some timeout => [0x08, 1, timeout]
  | none => []

/-- PHY_OPTS entry bytes (tag 0x06) — always emitted, two big-endian value
bytes (`(opts >> 8) as u8` and `opts as u8`). -/
def optsChunk (c : AppConfigInput) : List Nat :=
  [0x06, 2, optsVal c / 256, optsVal c % 256]

/-- PHY_ENABLED_CURVES entry bytes (tag 0x0A), emitted only when secp256k1 is
enabled; the last value byte carries PHY_CURVE_SECP256K1 = 0x08. -/
def curvesChunk (c : AppConfigInput) : List Nat :=
  if c.enable_secp256k1.getD false then [0x0A, 4, 0, 0, 0, 0x08] else []

/-- PHY_USB_PRODUCT entry bytes (tag 0x09): length byte `(len + 1) as u8`, the
UTF-8 name bytes, then one NUL terminator. -/
def nameChunk (c : AppConfigInput) : List Nat :=
  match c.product_name with
  | some name_bytes => [0x09, (name_bytes.length + 1) % 256] ++ name_bytes ++ [0x00]
  | none => []

/-- PHY_LED_DRIVER entry bytes (tag 0x0C). -/
def driverChunk (c : AppConfigInput) : List Nat :=
  match c.led_driver with
  | some driver => [0x0C, 1, driver]
  | none => []

/-- Everything `write_config` appends after the vid/pid block, in source order. -/
def tlvRest (c : AppConfigInput) : List Nat :=
  gpioChunk c ++ brightnessChunk c ++ timeoutChunk c ++ optsChunk c ++
  curvesChunk c ++ nameChunk c ++ driverChunk c

/-- Embeds the TLV-encoding phase of `write_config` (fido/mod.rs 348-423): the
PHY_VID/PHY_PID combined entry (tag 0x00, four big-endian value bytes) when
both hex strings are given — a parse failure aborts with `PFError::Io` (the
`ParseIntError` rendering is collapsed to one representative message) — then
the remaining entries. -/
def encodeConfigTLV (c : AppConfigInput) : Except PFError (List Nat) :=
  match c.vid, c.pid with
  | some vid_str, some pid_str =>
    match u16FromHex vid_str with
    | none => .error (PFError.Io "invalid digit found in string")
    | some vid =>
      match u16FromHex pid_str with
      | none => .error (PFError.Io "invalid digit found in string")
      | some pid => .ok ([0x00, 4, vid / 256, vid % 256, pid / 256, pid % 256] ++ tlvRest c)
  | _, _ => .ok (tlvRest c)

/- ===================== TLV entry view of the blob ===================== -/

/-- Serialize a tag/value entry list back to bytes: `[Tag][Length][Value...]`
per entry, with the length byte equal to the value length. -/
def bytesOfEntries (es : List (Nat × List Nat)) : List Nat :=
  es.flatMap fun e => e.1 :: e.2.length :: e.2

/-- Parse a byte sequence as consecutive `[Tag][Length][Value...]` entries. -/
def tlvParse : List Nat → Option (List (Nat × List Nat))
  | [] => some []
  | [_] => none
  | t :: len :: rest =>
    if _h : len ≤ rest.length then
      match tlvParse (rest.drop len) with
      | some es => some ((t, rest.take len) :: es)
      | none => none
    else none
termination_by b => b.length
decreasing_by simp [List.length_drop]; omega

theorem bytesOfEntries_append (a b : List (Nat × List Nat)) :
    bytesOfEntries (a ++ b) = bytesOfEntries a ++ bytesOfEntries b :=
  List.flatMap_append ..

/-- Parsing one well-formed entry peels it off the front. -/
theorem tlvParse_cons (t : Nat) (v rest : List Nat) :
    tlvParse (t :: v.length :: (v ++ rest)) = (tlvParse rest).map (fun es => (t, v) :: es) := by
  rw [tlvParse]
  have h : v.length ≤ (v ++ rest).length := by simp
  rw [dif_pos h, List.drop_left, List.take_left]
  cases tlvParse rest <;> rfl

/-- `tlvParse` is a left inverse of `bytesOfEntries`. -/
theorem tlvParse_bytesOfEntries : ∀ es : List (Nat × List Nat),
    tlvParse (bytesOfEntries es) = some es := by
  intro es
  induction es with
  | nil => simp [bytesOfEntries, tlvParse]
  | cons e rest ih =>
    obtain ⟨t, v⟩ := e
    show tlvParse (t :: v.length :: (v ++ bytesOfEntries rest)) = _
    rw [tlvParse_cons, ih]
    rfl

/-- The tag/value entries of the vid/pid block. -/
def vidEntries (c : AppConfigInput) : List (Nat × List Nat) :=
  match c.vid, c.pid with
  | some vid_str, some pid_str =>
    match u16FromHex vid_str, u16FromHex pid_str with
    | some vid, some pid => [(0x00, [vid / 256, vid % 256, pid / 256, pid % 256])]
    | _, _ => []
  | _, _ => []

/-- The tag/value entries of the remaining blocks, in source order. -/
def gpioEntries (c : AppConfigInput) : List (Nat × List Nat) :=
  match c.led_gpio with
  | some gpio => [(0x04, [gpio])]
  | none => []

def brightnessEntries (c : AppConfigInput) : List (Nat × List Nat) :=
  match c.led_brightness with
  | some brightness => [(0x05, [brightness])]
  | none => []

def timeoutEntries (c : AppConfigInput) : List (Nat × List Nat) :=
  match c.touch_timeout with
  | some timeout => [(0x08, [timeout])]
  | none => []

def optsEntries (c : AppConfigInput) : List (Nat × List Nat) :=
  [(0x06, [optsVal c / 256, optsVal c % 256])]

def curvesEntries (c : AppConfigInput) : List (Nat × List Nat) :=
  if c.enable_secp256k1.getD false then [(0x0A, [0, 0, 0, 0x08])] else []

def nameEntries (c : AppConfigInput) : List (Nat × List Nat) :=
  match c.product_name with
  | some name_bytes => [(0x09, name_bytes ++ [0x00])]
  | none => []

def driverEntries (c : AppConfigInput) : List (Nat × List Nat) :=
  match c.led_driver with
  | some driver => [(0x0C, [driver])]
  | none => []

def restEntries (c : AppConfigInput) : List (Nat × List Nat) :=
  gpioEntries c ++ brightnessEntries c ++ timeoutEntries c ++ optsEntries c ++
  curvesEntries c ++ nameEntries c ++ driverEntries c

def entriesOf (c : AppConfigInput) : List (Nat × List Nat) :=
  vidEntries c ++ restEntries c

theorem gpioChunk_eq (c : AppConfigInput) : gpioChunk c = bytesOfEntries (gpioEntries c) := by
  unfold gpioChunk gpioEntries
  cases c.led_gpio <;> rfl

theorem brightnessChunk_eq (c : AppConfigInput) :
    brightnessChunk c = bytesOfEntries (brightnessEntries c) := by
  unfold brightnessChunk brightnessEntries
  cases c.led_brightness <;> rfl

theorem timeoutChunk_eq (c : AppConfigInput) :
    timeoutChunk c = bytesOfEntries (timeoutEntries c) := by
  unfold timeoutChunk timeoutEntries
  cases c.touch_timeout <;> rfl

theorem optsChunk_eq (c : AppConfigInput) : optsChunk c = bytesOfEntries (optsEntries c) := rfl

theorem curvesChunk_eq (c : AppConfigInput) :
    curvesChunk c = bytesOfEntries (curvesEntries c) := by
  unfold curvesChunk curvesEntries
  cases c.enable_secp256k1.getD false <;> rfl

theorem nameChunk_eq (c : AppConfigInput)
    (h : ∀ nb ∈ c.product_name, nb.length + 1 < 256) :
    nameChunk c = bytesOfEntries (nameEntries c) := by
  unfold nameChunk nameEntries
  cases hn : c.product_name with
  | none => rfl
  | some nb =>
    have hlt := h nb (by rw [hn]; rfl)
    simp [bytesOfEntries, Nat.mod_eq_of_lt hlt]

theorem driverChunk_eq (c : AppConfigInput) :
    driverChunk c = bytesOfEntries (driverEntries c) := by
  unfold driverChunk driverEntries
  cases c.led_driver <;> rfl

theorem tlvRest_eq (c : AppConfigInput)
    (h : ∀ nb ∈ c.product_name, nb.length + 1 < 256) :
    tlvRest c = bytesOfEntries (restEntries c) := by
  unfold tlvRest restEntries
  rw [gpioChunk_eq, brightnessChunk_eq, timeoutChunk_eq, optsChunk_eq, curvesChunk_eq,
    nameChunk_eq c h, driverChunk_eq]
  simp only [bytesOfEntries_append, List.append_assoc]

/-- On valid inputs the encoder succeeds and its blob is exactly the byte
serialization of the entry list `entriesOf`. -/
theorem encodeConfigTLV_ok (c : AppConfigInput) (hv : validInput c = true) :
    encodeConfigTLV c = .ok (bytesOfEntries (entriesOf c)) := by
  have hv' := hv
  simp only [validInput, Bool.and_eq_true] at hv'
  obtain ⟨⟨⟨⟨⟨hvp, hg⟩, hb⟩, ht⟩, hd⟩, hn⟩ := hv'
  have hname : ∀ nb ∈ c.product_name, nb.length + 1 < 256 := by
    intro nb hnb
    rw [Option.mem_def] at hnb
    rw [hnb] at hn
    simp only [Option.all, Bool.and_eq_true, decide_eq_true_eq] at hn
    exact hn.1
  unfold encodeConfigTLV entriesOf
  cases hvid : c.vid with
  | none =>
    have hve : vidEntries c = [] := by simp [vidEntries, hvid]
    rw [hve, List.nil_append, tlvRest_eq c hname]
  | some vs =>
    cases hpid : c.pid with
    | none =>
      have hve : vidEntries c = [] := by simp [vidEntries, hvid, hpid]
      rw [hve, List.nil_append, tlvRest_eq c hname]
    | some ps =>
      rw [hvid, hpid] at hvp
      simp only [Bool.and_eq_true] at hvp
      obtain ⟨vid, hvid2⟩ := Option.isSome_iff_exists.mp hvp.1
      obtain ⟨pid, hpid2⟩ := Option.isSome_iff_exists.mp hvp.2
      have hve : vidEntries c = [(0x00, [vid / 256, vid % 256, pid / 256, pid % 256])] := by
        simp [vidEntries, hvid, hpid, hvid2, hpid2]
      simp only [hvid2, hpid2, hve, bytesOfEntries_append, tlvRest_eq c hname]
      rfl

/- ===================== C4: the options-bitfield entry ===================== -/

theorem vidEntries_filter6 (c : AppConfigInput) :
    (vidEntries c).filter (fun e => e.1 == 6) = [] := by
  unfold vidEntries
  split
  · split
    · rfl
    · rfl
  · rfl

theorem gpioEntries_filter6 (c : AppConfigInput) :
    (gpioEntries c).filter (fun e => e.1 == 6) = [] := by
  unfold gpioEntries
  rcases c.led_gpio with _ | g <;> rfl

theorem brightnessEntries_filter6 (c : AppConfigInput) :
    (brightnessEntries c).filter (fun e => e.1 == 6) = [] := by
  unfold brightnessEntries
  rcases c.led_brightness with _ | b <;> rfl

theorem timeoutEntries_filter6 (c : AppConfigInput) :
    (timeoutEntries c).filter (fun e => e.1 == 6) = [] := by
  unfold timeoutEntries
  rcases c.touch_timeout with _ | t <;> rfl

theorem curvesEntries_filter6 (c : AppConfigInput) :
    (curvesEntries c).filter (fun e => e.1 == 6) = [] := by
  unfold curvesEntries
  rcases c.enable_secp256k1.getD false <;> rfl

theorem nameEntries_filter6 (c : AppConfigInput) :
    (nameEntries c).filter (fun e => e.1 == 6) = [] := by
  unfold nameEntries
  rcases c.product_name with _ | nb <;> rfl

theorem driverEntries_filter6 (c : AppConfigInput) :
    (driverEntries c).filter (fun e => e.1 == 6) = [] := by
  unfold driverEntries
  rcases c.led_driver with _ | d <;> rfl

/-- The accumulated bitfield equals the sum of its three (disjoint) claim-side bits. -/
theorem optsVal_eq (c : AppConfigInput) :
    optsVal c = (if c.led_dimmable = some true then 2 else 0) +
                (if c.power_cycle_on_reset = some false then 4 else 0) +
                (if c.led_steady = some true then 8 else 0) := by
  unfold optsVal
  rcases c.led_dimmable with _ | b1 <;> try cases b1
  all_goals rcases c.power_cycle_on_reset with _ | b2 <;> try cases b2
  all_goals rcases c.led_steady with _ | b3 <;> try cases b3
  all_goals decide

theorem optsVal_lt (c : AppConfigInput) : optsVal c < 256 := by
  rw [optsVal_eq]
  split <;> split <;> split <;> norm_num

/-- C4: for every valid input accepted by the encoder, the blob parses into TLV
entries of which exactly one carries tag 0x06; it has a two-byte big-endian
value (high byte 0) whose low byte is exactly the sum of bit 0x02 iff
`led_dimmable = some true`, bit 0x04 iff `power_cycle_on_reset = some false`
(power-cycle disabled), and bit 0x08 iff `led_steady = some true` — emitted
even when every boolean flag is absent or default, with no other bits set. -/
theorem write_config_options_entry (c : AppConfigInput) (blob : List Nat)
    (hv : validInput c = true) (he : encodeConfigTLV c = .ok blob) :
    ∃ es, tlvParse blob = some es ∧
      es.filter (fun e => e.1 == 6) =
        [(6, [0, (if c.led_dimmable = some true then 2 else 0) +
                 (if c.power_cycle_on_reset = some false then 4 else 0) +
                 (if c.led_steady = some true then 8 else 0)])] := by
  have hb := encodeConfigTLV_ok c hv
  rw [he] at hb
  injection hb with hb
  subst hb
  refine ⟨entriesOf c, tlvParse_bytesOfEntries _, ?_⟩
  unfold entriesOf restEntries
  simp only [List.filter_append, vidEntries_filter6, gpioEntries_filter6,
    brightnessEntries_filter6, timeoutEntries_filter6, curvesEntries_filter6,
    nameEntries_filter6, driverEntries_filter6, List.nil_append, List.append_nil]
  show (optsEntries c).filter (fun e => e.1 == 6) = _
  unfold optsEntries
  rw [Nat.div_eq_of_lt (optsVal_lt c), Nat.mod_eq_of_lt (optsVal_lt c), optsVal_eq]
  rfl

/-- The all-absent configuration input. -/
def emptyInput : AppConfigInput := {}

/-- C4 witness: even with every field absent the encoder emits the single
options entry, with value 0. -/
theorem write_config_options_entry_witness :
    ∃ es, tlvParse [6, 2, 0, 0] = some es ∧
      es.filter (fun e => e.1 == 6) = [(6, [0, 0])] :=
  write_config_options_entry emptyInput [6, 2, 0, 0] (by decide) rfl

/- ===================== C8: the product-name entry ===================== -/

/-- C8: whenever the input's product name is `"MyKey"` (UTF-8 bytes
`[77,121,75,101,121]`), the encoded blob contains the contiguous byte
sequence `0x09, 0x06, 'M','y','K','e','y', 0x00` — the tag, a length of
name-length plus one, the name bytes and a single NUL terminator. -/
theorem write_config_product_name_bytes (c : AppConfigInput) (blob : List Nat)
    (hv : validInput c = true)
    (hname : c.product_name = some [77, 121, 75, 101, 121])
    (he : encodeConfigTLV c = .ok blob) :
    ∃ pre post, blob = pre ++ [0x09, 0x06, 77, 121, 75, 101, 121, 0x00] ++ post := by
  have hb := encodeConfigTLV_ok c hv
  rw [he] at hb
  injection hb with hb
  subst hb
  refine ⟨bytesOfEntries (vidEntries c) ++ bytesOfEntries (gpioEntries c) ++
    bytesOfEntries (brightnessEntries c) ++ bytesOfEntries (timeoutEntries c) ++
    bytesOfEntries (optsEntries c) ++ bytesOfEntries (curvesEntries c),
    bytesOfEntries (driverEntries c), ?_⟩
  unfold entriesOf restEntries
  have hn : bytesOfEntries (nameEntries c) = [0x09, 0x06, 77, 121, 75, 101, 121, 0x00] := by
    rw [nameEntries, hname]
    rfl
  simp only [bytesOfEntries_append, hn, List.append_assoc]

/-- The input whose only present field is the product name `"MyKey"`. -/
def nameOnlyInput : AppConfigInput := { product_name := some [77, 121, 75, 101, 121] }

/-- C8 witness: the theorem applied at the concrete `"MyKey"` input (the blob
is the always-present options entry followed by the product-name entry). -/
theorem write_config_product_name_bytes_witness :
    ∃ pre post, [0x06, 2, 0, 0, 0x09, 6, 77, 121, 75, 101, 121, 0] =
      pre ++ [0x09, 0x06, 77, 121, 75, 101, 121, 0x00] ++ post :=
  write_config_product_name_bytes nameOnlyInput _ (by decide) rfl rfl

/- ===================== C5: reference TLV decoder (spec section 6 tag table) ===================== -/

/-- The decoded view of a configuration blob, one optional slot per tag of the
spec's section-6 table.  `Modelled from the spec:` this is the reference
decoder's output type (the test harness mirroring firmware parsing is not part
of src/). -/
structure DecodedConfig where
  vid_pid : Option (Nat × Nat) := none
  led_gpio : Option Nat := none
  led_brightness : Option Nat := none
  options : Option Nat := none
  touch_timeout : Option Nat := none
  secp256k1_enabled : Option Bool := none
  product_name : Option (List Nat) := none
  led_driver : Option Nat := none
  deriving DecidableEq

/-- `Modelled from the spec:` well-formedness of one TLV entry per the
section-6 tag table — `0x00` len 4, `0x04`/`0x05`/`0x08`/`0x0C` len 1, `0x06`
len 2, `0x0A` len 4, `0x09` non-empty and NUL-terminated. -/
def entryWF (e : Nat × List Nat) : Bool :=
  (e.1 == 0x00 && e.2.length == 4) ||
  (e.1 == 0x04 && e.2.length == 1) ||
  (e.1 == 0x05 && e.2.length == 1) ||
  (e.1 == 0x06 && e.2.length == 2) ||
  (e.1 == 0x08 && e.2.length == 1) ||
  (e.1 == 0x0A && e.2.length == 4) ||
  (e.1 == 0x09 && decide (1 ≤ e.2.length) && (e.2.getLast? == some 0)) ||
  (e.1 == 0x0C && e.2.length == 1)

/-- The value of the first entry with the given tag. -/
def tagVal (es : List (Nat × List Nat)) (t : Nat) : Option (List Nat) :=
  (es.find? (fun e => e.1 == t)).map (fun e => e.2)

/-- `Modelled from the spec:` the reference decoder of the section-6 tag table:
parse the TLV structure, require every entry well-formed, then read each tag's
value — vid/pid as two big-endian 16-bit halves of the 4-byte value, the
options bitfield as a big-endian 16-bit value, secp256k1 as bit `0x08` of the
last curve byte, the product name as the value minus its NUL terminator. -/
def refDecodeTLV (b : List Nat) : Option DecodedConfig :=
  match tlvParse b with
  | none => none
  | some es =>
    if es.all entryWF then
      some
        { vid_pid := (tagVal es 0x00).map (fun v =>
            (v.getD 0 0 * 256 + v.getD 1 0, v.getD 2 0 * 256 + v.getD 3 0))
          led_gpio := (tagVal es 0x04).map (fun v => v.getD 0 0)
          led_brightness := (tagVal es 0x05).map (fun v => v.getD 0 0)
          options := (tagVal es 0x06).map (fun v => v.getD 0 0 * 256 + v.getD 1 0)
          touch_timeout := (tagVal es 0x08).map (fun v => v.getD 0 0)
          secp256k1_enabled := (tagVal es 0x0A).map (fun v => (v.getD 3 0 &&& 0x08) != 0)
          product_name := (tagVal es 0x09).map (fun v => v.dropLast)
          led_driver := (tagVal es 0x0C).map (fun v => v.getD 0 0) }
    else none

/-- What the reference decoder is expected to recover from an input: exactly
the present fields (with vid/pid as parsed numbers and the boolean flags folded
into the always-present options bitfield; the curves entry exists only when
secp256k1 is enabled). -/
def expectedDecoded (c : AppConfigInput) : DecodedConfig :=
  { vid_pid :=
      match c.vid, c.pid with
      | some vs, some ps =>
        match u16FromHex vs, u16FromHex ps with
        | some vid, some pid => some (vid, pid)
        | _, _ => none
      | _, _ => none
    led_gpio := c.led_gpio
    led_brightness := c.led_brightness
    options := some (optsVal c)
    touch_timeout := c.touch_timeout
    secp256k1_enabled := if c.enable_secp256k1.getD false then some true else none
    product_name := c.product_name
    led_driver := c.led_driver }

/-- The tags a valid input's blob must contain, in encoder order: one tag per
present field, the options tag always. -/
def presentTags (c : AppConfigInput) : List Nat :=
  (if c.vid.isSome && c.pid.isSome then [0x00] else []) ++
  (if c.led_gpio.isSome then [0x04] else []) ++
  (if c.led_brightness.isSome then [0x05] else []) ++
  (if c.touch_timeout.isSome then [0x08] else []) ++
  [0x06] ++
  (if c.enable_secp256k1.getD false then [0x0A] else []) ++
  (if c.product_name.isSome then [0x09] else []) ++
  (if c.led_driver.isSome then [0x0C] else [])

theorem mem_vidEntries_tag (c : AppConfigInput) : ∀ e ∈ vidEntries c, e.1 = 0x00 := by
  unfold vidEntries
  split
  · split
    · intro e he; simp only [List.mem_singleton] at he; subst he; rfl
    · intro e he; simp at he
  · intro e he; simp at he

theorem mem_gpioEntries_tag (c : AppConfigInput) : ∀ e ∈ gpioEntries c, e.1 = 0x04 := by
  unfold gpioEntries
  rcases c.led_gpio with _ | g
  · intro e he; simp at he
  · intro e he; simp only [List.mem_singleton] at he; subst he; rfl

theorem mem_brightnessEntries_tag (c : AppConfigInput) :
    ∀ e ∈ brightnessEntries c, e.1 = 0x05 := by
  unfold brightnessEntries
  rcases c.led_brightness with _ | b
  · intro e he; simp at he
  · intro e he; simp only [List.mem_singleton] at he; subst he; rfl

theorem mem_timeoutEntries_tag (c : AppConfigInput) : ∀ e ∈ timeoutEntries c, e.1 = 0x08 := by
  unfold timeoutEntries
  rcases c.touch_timeout with _ | t
  · intro e he; simp at he
  · intro e he; simp only [List.mem_singleton] at he; subst he; rfl

theorem mem_optsEntries_tag (c : AppConfigInput) : ∀ e ∈ optsEntries c, e.1 = 0x06 := by
  intro e he
  simp only [optsEntries, List.mem_singleton] at he
  subst he; rfl

theorem mem_curvesEntries_tag (c : AppConfigInput) : ∀ e ∈ curvesEntries c, e.1 = 0x0A := by
  unfold curvesEntries
  split
  · intro e he; simp only [List.mem_singleton] at he; subst he; rfl
  · intro e he; simp at he

theorem mem_nameEntries_tag (c : AppConfigInput) : ∀ e ∈ nameEntries c, e.1 = 0x09 := by
  unfold nameEntries
  rcases c.product_name with _ | nb
  · intro e he; simp at he
  · intro e he; simp only [List.mem_singleton] at he; subst he; rfl

theorem mem_driverEntries_tag (c : AppConfigInput) : ∀ e ∈ driverEntries c, e.1 = 0x0C := by
  unfold driverEntries
  rcases c.led_driver with _ | d
  · intro e he; simp at he
  · intro e he; simp only [List.mem_singleton] at he; subst he; rfl

/-- Skip a leading block all of whose entries carry a different tag. -/
theorem tagVal_skip (t a : Nat) (hne : a ≠ t) (l1 l2 : List (Nat × List Nat))
    (h : ∀ e ∈ l1, e.1 = a) : tagVal (l1 ++ l2) t = tagVal l2 t := by
  unfold tagVal
  have hn : l1.find? (fun e => e.1 == t) = none :=
    List.find?_eq_none.mpr (fun x hx => by simp [h x hx, hne])
  simp [List.find?_append, hn]

/-- A block all of whose entries carry a different tag contributes no value. -/
theorem tagVal_none (t a : Nat) (hne : a ≠ t) (l : List (Nat × List Nat))
    (h : ∀ e ∈ l, e.1 = a) : tagVal l t = none := by
  unfold tagVal
  rw [List.find?_eq_none.mpr (fun x hx => by simp [h x hx, hne])]
  rfl

/-- The first entry's value is returned when its tag matches. -/
theorem tagVal_here (t : Nat) (v : List Nat) (l : List (Nat × List Nat)) :
    tagVal ((t, v) :: l) t = some v := by
  unfold tagVal
  rw [List.find?_cons_of_pos]
  · rfl
  · simp

theorem tagVal_entriesOf_gpio (c : AppConfigInput) :
    tagVal (entriesOf c) 0x04 = c.led_gpio.map (fun g => [g]) := by
  unfold entriesOf restEntries
  simp only [List.append_assoc]
  rw [tagVal_skip 4 0 (by decide) _ _ (mem_vidEntries_tag c)]
  rcases hg : c.led_gpio with _ | g
  · simp only [gpioEntries, hg, List.nil_append]
    rw [tagVal_skip 4 5 (by decide) _ _ (mem_brightnessEntries_tag c),
      tagVal_skip 4 8 (by decide) _ _ (mem_timeoutEntries_tag c),
      tagVal_skip 4 6 (by decide) _ _ (mem_optsEntries_tag c),
      tagVal_skip 4 10 (by decide) _ _ (mem_curvesEntries_tag c),
      tagVal_skip 4 9 (by decide) _ _ (mem_nameEntries_tag c)]
    exact tagVal_none 4 12 (by decide) _ (mem_driverEntries_tag c)
  · simp only [gpioEntries, hg, List.singleton_append]
    exact tagVal_here 4 [g] _

theorem tagVal_entriesOf_brightness (c : AppConfigInput) :
    tagVal (entriesOf c) 0x05 = c.led_brightness.map (fun b => [b]) := by
  unfold entriesOf restEntries
  simp only [List.append_assoc]
  rw [tagVal_skip 5 0 (by decide) _ _ (mem_vidEntries_tag c),
    tagVal_skip 5 4 (by decide) _ _ (mem_gpioEntries_tag c)]
  rcases hb : c.led_brightness with _ | b
  · simp only [brightnessEntries, hb, List.nil_append]
    rw [tagVal_skip 5 8 (by decide) _ _ (mem_timeoutEntries_tag c),
      tagVal_skip 5 6 (by decide) _ _ (mem_optsEntries_tag c),
      tagVal_skip 5 10 (by decide) _ _ (mem_curvesEntries_tag c),
      tagVal_skip 5 9 (by decide) _ _ (mem_nameEntries_tag c)]
    exact tagVal_none 5 12 (by decide) _ (mem_driverEntries_tag c)
  · simp only [brightnessEntries, hb, List.singleton_append]
    exact tagVal_here 5 [b] _

theorem tagVal_entriesOf_timeout (c : AppConfigInput) :
    tagVal (entriesOf c) 0x08 = c.touch_timeout.map (fun t => [t]) := by
  unfold entriesOf restEntries
  simp only [List.append_assoc]
  rw [tagVal_skip 8 0 (by decide) _ _ (mem_vidEntries_tag c),
    tagVal_skip 8 4 (by decide) _ _ (mem_gpioEntries_tag c),
    tagVal_skip 8 5 (by decide) _ _ (mem_brightnessEntries_tag c)]
  rcases ht : c.touch_timeout with _ | t
  · simp only [timeoutEntries, ht, List.nil_append]
    rw [tagVal_skip 8 6 (by decide) _ _ (mem_optsEntries_tag c),
      tagVal_skip 8 10 (by decide) _ _ (mem_curvesEntries_tag c),
      tagVal_skip 8 9 (by decide) _ _ (mem_nameEntries_tag c)]
    exact tagVal_none 8 12 (by decide) _ (mem_driverEntries_tag c)
  · simp only [timeoutEntries, ht, List.singleton_append]
    exact tagVal_here 8 [t] _

theorem tagVal_entriesOf_opts (c : AppConfigInput) :
    tagVal (entriesOf c) 0x06 = some [optsVal c / 256, optsVal c % 256] := by
  unfold entriesOf restEntries
  simp only [List.append_assoc]
  rw [tagVal_skip 6 0 (by decide) _ _ (mem_vidEntries_tag c),
    tagVal_skip 6 4 (by decide) _ _ (mem_gpioEntries_tag c),
    tagVal_skip 6 5 (by decide) _ _ (mem_brightnessEntries_tag c),
    tagVal_skip 6 8 (by decide) _ _ (mem_timeoutEntries_tag c)]
  simp only [optsEntries, List.singleton_append]
  exact tagVal_here 6 _ _

theorem tagVal_entriesOf_curves (c : AppConfigInput) :
    tagVal (entriesOf c) 0x0A =
      if c.enable_secp256k1.getD false then some [0, 0, 0, 0x08] else none := by
  unfold entriesOf restEntries
  simp only [List.append_assoc]
  rw [tagVal_skip 10 0 (by decide) _ _ (mem_vidEntries_tag c),
    tagVal_skip 10 4 (by decide) _ _ (mem_gpioEntries_tag c),
    tagVal_skip 10 5 (by decide) _ _ (mem_brightnessEntries_tag c),
    tagVal_skip 10 8 (by decide) _ _ (mem_timeoutEntries_tag c),
    tagVal_skip 10 6 (by decide) _ _ (mem_optsEntries_tag c)]
  rcases hs : c.enable_secp256k1.getD false
  · have hce : curvesEntries c = [] := by simp [curvesEntries, hs]
    rw [hce, List.nil_append,
      tagVal_skip 10 9 (by decide) _ _ (mem_nameEntries_tag c),
      tagVal_none 10 12 (by decide) _ (mem_driverEntries_tag c)]
    simp
  · have hce : curvesEntries c = [(10, [0, 0, 0, 0x08])] := by simp [curvesEntries, hs]
    rw [hce, List.singleton_append, tagVal_here 10 _ _]
    simp

theorem tagVal_entriesOf_name (c : AppConfigInput) :
    tagVal (entriesOf c) 0x09 = c.product_name.map (fun nb => nb ++ [0]) := by
  unfold entriesOf restEntries
  simp only [List.append_assoc]
  rw [tagVal_skip 9 0 (by decide) _ _ (mem_vidEntries_tag c),
    tagVal_skip 9 4 (by decide) _ _ (mem_gpioEntries_tag c),
    tagVal_skip 9 5 (by decide) _ _ (mem_brightnessEntries_tag c),
    tagVal_skip 9 8 (by decide) _ _ (mem_timeoutEntries_tag c),
    tagVal_skip 9 6 (by decide) _ _ (mem_optsEntries_tag c),
    tagVal_skip 9 10 (by decide) _ _ (mem_curvesEntries_tag c)]
  rcases hn : c.product_name with _ | nb
  · simp only [nameEntries, hn, List.nil_append]
    exact tagVal_none 9 12 (by decide) _ (mem_driverEntries_tag c)
  · simp only [nameEntries, hn, List.singleton_append]
    exact tagVal_here 9 _ _

theorem tagVal_entriesOf_driver (c : AppConfigInput) :
    tagVal (entriesOf c) 0x0C = c.led_driver.map (fun d => [d]) := by
  unfold entriesOf restEntries
  simp only [List.append_assoc]
  rw [tagVal_skip 12 0 (by decide) _ _ (mem_vidEntries_tag c),
    tagVal_skip 12 4 (by decide) _ _ (mem_gpioEntries_tag c),
    tagVal_skip 12 5 (by decide) _ _ (mem_brightnessEntries_tag c),
    tagVal_skip 12 8 (by decide) _ _ (mem_timeoutEntries_tag c),
    tagVal_skip 12 6 (by decide) _ _ (mem_optsEntries_tag c),
    tagVal_skip 12 10 (by decide) _ _ (mem_curvesEntries_tag c),
    tagVal_skip 12 9 (by decide) _ _ (mem_nameEntries_tag c)]
  rcases hd : c.led_driver with _ | d
  · simp [driverEntries, hd, tagVal]
  · simp only [driverEntries, hd]
    exact tagVal_here 12 [d] _

theorem tagVal_entriesOf_vid (c : AppConfigInput) :
    tagVal (entriesOf c) 0x00 =
      match c.vid, c.pid with
      | some vs, some ps =>
        match u16FromHex vs, u16FromHex ps with
        | some vid, some pid => some [vid / 256, vid % 256, pid / 256, pid % 256]
        | _, _ => none
      | _, _ => none := by
  have hrest : tagVal (restEntries c) 0x00 = none := by
    unfold restEntries
    simp only [List.append_assoc]
    rw [tagVal_skip 0 4 (by decide) _ _ (mem_gpioEntries_tag c),
      tagVal_skip 0 5 (by decide) _ _ (mem_brightnessEntries_tag c),
      tagVal_skip 0 8 (by decide) _ _ (mem_timeoutEntries_tag c),
      tagVal_skip 0 6 (by decide) _ _ (mem_optsEntries_tag c),
      tagVal_skip 0 10 (by decide) _ _ (mem_curvesEntries_tag c),
      tagVal_skip 0 9 (by decide) _ _ (mem_nameEntries_tag c)]
    exact tagVal_none 0 12 (by decide) _ (mem_driverEntries_tag c)
  unfold entriesOf
  rcases hvid : c.vid with _ | vs
  · have hve : vidEntries c = [] := by simp [vidEntries, hvid]
    rw [hve, List.nil_append, hrest]
  · rcases hpid : c.pid with _ | ps
    · have hve : vidEntries c = [] := by simp [vidEntries, hvid, hpid]
      rw [hve, List.nil_append, hrest]
    · rcases hu : u16FromHex vs with _ | vid
      · have hve : vidEntries c = [] := by simp [vidEntries, hvid, hpid, hu]
        rw [hve, List.nil_append, hrest]
        simp [hu]
      · rcases hp : u16FromHex ps with _ | pid
        · have hve : vidEntries c = [] := by simp [vidEntries, hvid, hpid, hu, hp]
          rw [hve, List.nil_append, hrest]
          simp [hu, hp]
        · have hve : vidEntries c = [(0x00, [vid / 256, vid % 256, pid / 256, pid % 256])] := by
            simp [vidEntries, hvid, hpid, hu, hp]
          rw [hve, List.singleton_append]
          simp only [hu, hp]
          exact tagVal_here 0 _ _

theorem vidEntries_wf (c : AppConfigInput) : (vidEntries c).all entryWF = true := by
  unfold vidEntries
  split
  · split
    · rfl
    · rfl
  · rfl

theorem gpioEntries_wf (c : AppConfigInput) : (gpioEntries c).all entryWF = true := by
  unfold gpioEntries
  rcases c.led_gpio with _ | g <;> rfl

theorem brightnessEntries_wf (c : AppConfigInput) : (brightnessEntries c).all entryWF = true := by
  unfold brightnessEntries
  rcases c.led_brightness with _ | b <;> rfl

theorem timeoutEntries_wf (c : AppConfigInput) : (timeoutEntries c).all entryWF = true := by
  unfold timeoutEntries
  rcases c.touch_timeout with _ | t <;> rfl

theorem optsEntries_wf (c : AppConfigInput) : (optsEntries c).all entryWF = true := rfl

theorem curvesEntries_wf (c : AppConfigInput) : (curvesEntries c).all entryWF = true := by
  unfold curvesEntries
  rcases c.enable_secp256k1.getD false <;> rfl

theorem nameEntries_wf (c : AppConfigInput) : (nameEntries c).all entryWF = true := by
  unfold nameEntries
  rcases c.product_name with _ | nb
  · rfl
  · simp [entryWF, List.getLast?_concat]

theorem driverEntries_wf (c : AppConfigInput) : (driverEntries c).all entryWF = true := by
  unfold driverEntries
  rcases c.led_driver with _ | d <;> rfl

theorem entriesOf_wf (c : AppConfigInput) : (entriesOf c).all entryWF = true := by
  unfold entriesOf restEntries
  simp only [List.all_append, vidEntries_wf, gpioEntries_wf, brightnessEntries_wf,
    timeoutEntries_wf, optsEntries_wf, curvesEntries_wf, nameEntries_wf, driverEntries_wf,
    Bool.and_true, Bool.true_and]

theorem vidEntries_map_fst (c : AppConfigInput) (hv : validInput c = true) :
    (vidEntries c).map Prod.fst = (if c.vid.isSome && c.pid.isSome then [0x00] else []) := by
  rcases hvid : c.vid with _ | vs
  · simp [vidEntries, hvid]
  · rcases hpid : c.pid with _ | ps
    · simp [vidEntries, hvid, hpid]
    · have hv' := hv
      simp only [validInput, hvid, hpid, Bool.and_eq_true] at hv'
      obtain ⟨⟨⟨⟨⟨⟨h1, h2⟩, _⟩, _⟩, _⟩, _⟩, _⟩ := hv'
      obtain ⟨vid, hu⟩ := Option.isSome_iff_exists.mp h1
      obtain ⟨pid, hp⟩ := Option.isSome_iff_exists.mp h2
      simp [vidEntries, hvid, hpid, hu, hp]

theorem gpioEntries_map_fst (c : AppConfigInput) :
    (gpioEntries c).map Prod.fst = (if c.led_gpio.isSome then [0x04] else []) := by
  rcases h : c.led_gpio with _ | g <;> simp [gpioEntries, h]

theorem brightnessEntries_map_fst (c : AppConfigInput) :
    (brightnessEntries c).map Prod.fst = (if c.led_brightness.isSome then [0x05] else []) := by
  rcases h : c.led_brightness with _ | b <;> simp [brightnessEntries, h]

theorem timeoutEntries_map_fst (c : AppConfigInput) :
    (timeoutEntries c).map Prod.fst = (if c.touch_timeout.isSome then [0x08] else []) := by
  rcases h : c.touch_timeout with _ | t <;> simp [timeoutEntries, h]

theorem optsEntries_map_fst (c : AppConfigInput) :
    (optsEntries c).map Prod.fst = [0x06] := rfl

theorem curvesEntries_map_fst (c : AppConfigInput) :
    (curvesEntries c).map Prod.fst = (if c.enable_secp256k1.getD false then [0x0A] else []) := by
  rcases h : c.enable_secp256k1.getD false <;> simp [curvesEntries, h]

theorem nameEntries_map_fst (c : AppConfigInput) :
    (nameEntries c).map Prod.fst = (if c.product_name.isSome then [0x09] else []) := by
  rcases h : c.product_name with _ | nb <;> simp [nameEntries, h]

theorem driverEntries_map_fst (c : AppConfigInput) :
    (driverEntries c).map Prod.fst = (if c.led_driver.isSome then [0x0C] else []) := by
  rcases h : c.led_driver with _ | d <;> simp [driverEntries, h]

theorem map_fst_entriesOf (c : AppConfigInput) (hv : validInput c = true) :
    (entriesOf c).map Prod.fst = presentTags c := by
  unfold entriesOf restEntries presentTags
  simp only [List.map_append]
  rw [vidEntries_map_fst c hv, gpioEntries_map_fst, brightnessEntries_map_fst,
    timeoutEntries_map_fst, optsEntries_map_fst, curvesEntries_map_fst,
    nameEntries_map_fst, driverEntries_map_fst]
  simp [List.append_assoc]

theorem decoded_field_vid (c : AppConfigInput) :
    (tagVal (entriesOf c) 0x00).map (fun v =>
      (v.getD 0 0 * 256 + v.getD 1 0, v.getD 2 0 * 256 + v.getD 3 0)) =
    (expectedDecoded c).vid_pid := by
  rw [tagVal_entriesOf_vid]
  simp only [expectedDecoded]
  rcases c.vid with _ | vs
  · rfl
  · rcases c.pid with _ | ps
    · rfl
    · show Option.map (fun v => (v.getD 0 0 * 256 + v.getD 1 0, v.getD 2 0 * 256 + v.getD 3 0))
          (match u16FromHex vs, u16FromHex ps with
           | some vid, some pid => some [vid / 256, vid % 256, pid / 256, pid % 256]
           | _, _ => none) =
        (match u16FromHex vs, u16FromHex ps with
         | some vid, some pid => some ((vid, pid) : Nat × Nat)
         | _, _ => none)
      rcases u16FromHex vs with _ | vid
      · rfl
      · rcases u16FromHex ps with _ | pid
        · rfl
        · have h1 : vid / 256 * 256 + vid % 256 = vid := by omega
          have h2 : pid / 256 * 256 + pid % 256 = pid := by omega
          simp [h1, h2]

theorem decoded_field_gpio (c : AppConfigInput) :
    (tagVal (entriesOf c) 0x04).map (fun v => v.getD 0 0) = (expectedDecoded c).led_gpio := by
  rw [tagVal_entriesOf_gpio]
  simp only [expectedDecoded]
  rcases c.led_gpio with _ | g <;> rfl

theorem decoded_field_brightness (c : AppConfigInput) :
    (tagVal (entriesOf c) 0x05).map (fun v => v.getD 0 0) =
      (expectedDecoded c).led_brightness := by
  rw [tagVal_entriesOf_brightness]
  simp only [expectedDecoded]
  rcases c.led_brightness with _ | b <;> rfl

theorem decoded_field_opts (c : AppConfigInput) :
    (tagVal (entriesOf c) 0x06).map (fun v => v.getD 0 0 * 256 + v.getD 1 0) =
      (expectedDecoded c).options := by
  rw [tagVal_entriesOf_opts]
  simp only [expectedDecoded]
  have h : optsVal c / 256 * 256 + optsVal c % 256 = optsVal c := by omega
  simp [h]

theorem decoded_field_timeout (c : AppConfigInput) :
    (tagVal (entriesOf c) 0x08).map (fun v => v.getD 0 0) =
      (expectedDecoded c).touch_timeout := by
  rw [tagVal_entriesOf_timeout]
  simp only [expectedDecoded]
  rcases c.touch_timeout with _ | t <;> rfl

theorem decoded_field_secp (c : AppConfigInput) :
    (tagVal (entriesOf c) 0x0A).map (fun v => (v.getD 3 0 &&& 0x08) != 0) =
      (expectedDecoded c).secp256k1_enabled := by
  rw [tagVal_entriesOf_curves]
  simp only [expectedDecoded]
  rcases c.enable_secp256k1.getD false <;> rfl

theorem decoded_field_name (c : AppConfigInput) :
    (tagVal (entriesOf c) 0x09).map (fun v => v.dropLast) =
      (expectedDecoded c).product_name := by
  rw [tagVal_entriesOf_name]
  simp only [expectedDecoded]
  rcases c.product_name with _ | nb
  · rfl
  · simp [List.dropLast_concat]

theorem decoded_field_driver (c : AppConfigInput) :
    (tagVal (entriesOf c) 0x0C).map (fun v => v.getD 0 0) = (expectedDecoded c).led_driver := by
  rw [tagVal_entriesOf_driver]
  simp only [expectedDecoded]
  rcases c.led_driver with _ | d <;> rfl

/-- C5 (amended): for every valid input, encoding then decoding with the
reference section-6 decoder recovers exactly the fields present in the input —
with the boolean flag fields carried by the always-emitted options bitfield,
and the enabled-curves entry emitted (hence recovered) only when
`enable_secp256k1` is true — and the blob's tag sequence lists exactly the
present fields' tags (absent fields contribute no TLV entry at all). -/
theorem tlv_roundtrip (c : AppConfigInput) (blob : List Nat)
    (hv : validInput c = true) (he : encodeConfigTLV c = .ok blob) :
    refDecodeTLV blob = some (expectedDecoded c) ∧
    (tlvParse blob).map (List.map Prod.fst) = some (presentTags c) := by
  have hb := encodeConfigTLV_ok c hv
  rw [he] at hb
  injection hb with hb
  subst hb
  have hparse := tlvParse_bytesOfEntries (entriesOf c)
  constructor
  · unfold refDecodeTLV
    simp only [hparse]
    rw [if_pos (entriesOf_wf c)]
    rw [decoded_field_vid, decoded_field_gpio, decoded_field_brightness, decoded_field_opts,
      decoded_field_timeout, decoded_field_secp, decoded_field_name, decoded_field_driver]
  · rw [hparse]
    show some ((entriesOf c).map Prod.fst) = _
    rw [map_fst_entriesOf c hv]

/-- A fully-populated input used to exercise the round trip. -/
def fullInput : AppConfigInput :=
  { vid := some "20A0", pid := some "42D4", led_gpio := some 25, led_brightness := some 128,
    led_dimmable := some true, led_steady := some false, power_cycle_on_reset := some false,
    touch_timeout := some 15, enable_secp256k1 := some true,
    product_name := some [77, 121, 75, 101, 121], led_driver := some 1 }

/-- C5 witness: the round trip at a concrete fully-populated input. -/
theorem tlv_roundtrip_witness :
    refDecodeTLV [0, 4, 32, 160, 66, 212, 4, 1, 25, 5, 1, 128, 8, 1, 15, 6, 2, 0, 6,
        10, 4, 0, 0, 0, 8, 9, 6, 77, 121, 75, 101, 121, 0, 12, 1, 1] =
      some { vid_pid := some (8352, 17108), led_gpio := some 25, led_brightness := some 128,
             options := some 6, touch_timeout := some 15, secp256k1_enabled := some true,
             product_name := some [77, 121, 75, 101, 121], led_driver := some 1 } ∧
    (tlvParse [0, 4, 32, 160, 66, 212, 4, 1, 25, 5, 1, 128, 8, 1, 15, 6, 2, 0, 6,
        10, 4, 0, 0, 0, 8, 9, 6, 77, 121, 75, 101, 121, 0, 12, 1, 1]).map (List.map Prod.fst) =
      some [0x00, 0x04, 0x05, 0x08, 0x06, 0x0A, 0x09, 0x0C] :=
  tlv_roundtrip fullInput
    [0, 4, 32, 160, 66, 212, 4, 1, 25, 5, 1, 128, 8, 1, 15, 6, 2, 0, 6,
     10, 4, 0, 0, 0, 8, 9, 6, 77, 121, 75, 101, 121, 0, 12, 1, 1] (by decide) rfl

/-- The input whose only present field is `enable_secp256k1 = some false`. -/
def secpFalseInput : AppConfigInput := { enable_secp256k1 := some false }

/-- C5 counterexample: an input with `enable_secp256k1` present (but false)
encodes to a blob with no curves entry, so decoding does not recover that
present field — the claim's "recovers exactly the fields that were present"
fails as stated. -/
theorem tlv_roundtrip_secp_counterexample :
    encodeConfigTLV secpFalseInput = .ok [6, 2, 0, 0] ∧
    secpFalseInput.enable_secp256k1 = some false ∧
    (refDecodeTLV [6, 2, 0, 0]).map (fun d => d.secp256k1_enabled) = some none := by
  refine ⟨rfl, rfl, ?_⟩
  have hp : tlvParse [6, 2, 0, 0] = some [(6, [0, 0])] := tlvParse_bytesOfEntries [(6, [0, 0])]
  unfold refDecodeTLV
  rw [hp]
  rfl

/- ===================== Credential-channel writer (write_config, fido/mod.rs 431-460) ===================== -/

/-- Embeds `ctap_hid_fido2::public_key_credential_user_entity::PublicKeyCredentialUserEntity`
as constructed by `write_config` via `PublicKeyCredentialUserEntity::new(id, name, display_name)`. -/
structure PublicKeyCredentialUserEntity where
  id : List Nat
  name : String
  display_name : String
  deriving DecidableEq

/-- Embeds `ctap_hid_fido2::fidokey::make_credential::MakeCredentialArgs` — the
fields `write_config` fills.  `key_types` entries and extension payloads are
never constructed by this code, so their element types are modelled as `Unit`. -/
structure MakeCredentialArgs where
  rpid : String
  challenge : List Nat
  pin : Option String
  key_types : List Unit
  uv : Option Bool
  exclude_list : List (List Nat)
  user_entity : Option PublicKeyCredentialUserEntity
  rk : Option Bool
  extensions : Option Unit
  deriving DecidableEq

/-- Environment for `write_config`: connection outcome, the 32 random bytes
`rand::rng().fill` writes into the challenge buffer (`[0u8; 32]`), and the
device's answer to the credential-creation request. -/
structure WriteEnv where
  create : Except String Unit
  challenge : List Nat
  challenge_len : challenge.length = 32
  makeCred : MakeCredentialArgs → Except String Unit

/-- Embeds `write_config` (fido/mod.rs 345-461): TLV-encode the configuration,
connect, then issue a credential-creation request whose user entity's id is the
TLV blob.  The second component records the request passed to
`make_credential_with_args`, when one is issued. -/
def write_config (env : WriteEnv) (config : AppConfigInput) (pin : Option String) :
    Except PFError String × Option MakeCredentialArgs :=
  match encodeConfigTLV config with
  | .error e => (.error e, none)
  | .ok byte_array =>
    match env.create with
    | .error e => (.error (.Device ("Could not connect to FIDO device: " ++ e)), none)
    | .ok _ =>
      let user : PublicKeyCredentialUserEntity :=
        { id := byte_array, name := "+picoCommissionProfile",
          display_name := "Pico Commissioner" }
      let args : MakeCredentialArgs :=
        { rpid := "Pico Keys", challenge := env.challenge, pin := pin, key_types := [],
          uv := none, exclude_list := [], user_entity := some user, rk := none,
          extensions := none }
      match env.makeCred args with
      | .error e => (.error (.Device ("MakeCredential failed: " ++ e)), some args)
      | .ok _ => (.ok "Commissioned successfully!", some args)

/-- C7: for every accepted input, the credential-creation request issued by
`write_config` has a 32-byte (freshly drawn) challenge, a user entity whose id
is exactly the TLV blob with the fixed handle and display-name literals, the
fixed relying-party id "Pico Keys", an empty exclusion list, no explicit
user-verification requirement and no extensions. -/
theorem write_config_request_shape (env : WriteEnv) (c : AppConfigInput)
    (pin : Option String) (blob : List Nat)
    (he : encodeConfigTLV c = .ok blob) (hc : env.create = .ok ()) :
    (write_config env c pin).2 = some
      { rpid := "Pico Keys", challenge := env.challenge, pin := pin, key_types := [],
        uv := none, exclude_list := [],
        user_entity := some { id := blob, name := "+picoCommissionProfile",
                              display_name := "Pico Commissioner" },
        rk := none, extensions := none } ∧
    env.challenge.length = 32 := by
  constructor
  · rcases hm : env.makeCred (MakeCredentialArgs.mk "Pico Keys" env.challenge pin [] none [] (some (PublicKeyCredentialUserEntity.mk blob "+picoCommissionProfile" "Pico Commissioner")) none none) with e | u <;>
      simp [write_config, he, hc, hm]
  · exact env.challenge_len

/-- An environment whose connection succeeds, with an all-zero challenge draw. -/
def writeEnvOk : WriteEnv :=
  { create := .ok ()
    challenge := List.replicate 32 0
    challenge_len := by decide
    makeCred := fun _ => .ok () }

/-- C7 witness: the request issued for the all-absent input. -/
theorem write_config_request_shape_witness :
    (write_config writeEnvOk emptyInput none).2 = some
      { rpid := "Pico Keys", challenge := List.replicate 32 0, pin := none, key_types := [],
        uv := none, exclude_list := [],
        user_entity := some { id := [6, 2, 0, 0], name := "+picoCommissionProfile",
                              display_name := "Pico Commissioner" },
        rk := none, extensions := none } ∧
    writeEnvOk.challenge.length = 32 :=
  write_config_request_shape writeEnvOk emptyInput none [6, 2, 0, 0] rfl rfl

/- ===================== CBOR codec (models the external serde_cbor_2 crate) ===================== -/

/-- Models `serde_cbor_2::Value` on the subset this program can produce or
consume (integers, byte strings, text strings — kept as their UTF-8 bytes —,
arrays, maps, booleans, null).  Floats and tags are outside the modelled
subset; inputs using them decode to `none` here. -/
inductive CborValue where
  | int (i : Int)
  | bytes (b : List Nat)
  | text (b : List Nat)
  | array (vs : List CborValue)
  | map (kvs : List (CborValue × CborValue))
  | bool (b : Bool)
  | null

/-- Big-endian accumulation of `k` bytes. -/
def readUIntBE : Nat → Nat → List Nat → Option (Nat × List Nat)
  | 0, acc, b => some (acc, b)
  | _ + 1, _, [] => none
  | k + 1, acc, x :: rest => readUIntBE k (acc * 256 + x) rest

/-- Decode a CBOR head's argument from the additional-information bits
(values 0-23 immediate, 24-27 one/two/four/eight following bytes). -/
def readArg (addl : Nat) (rest : List Nat) : Option (Nat × List Nat) :=
  if addl < 24 then some (addl, rest)
  else if addl = 24 then readUIntBE 1 0 rest
  else if addl = 25 then readUIntBE 2 0 rest
  else if addl = 26 then readUIntBE 4 0 rest
  else if addl = 27 then readUIntBE 8 0 rest
  else none

/-- Decode `n` consecutive items with the given item decoder. -/
def decodeListWith (dec : List Nat → Option (CborValue × List Nat)) :
    Nat → List Nat → Option (List CborValue × List Nat)
  | 0, b => some ([], b)
  | n + 1, b =>
    match dec b with
    | some (v, r) =>
      match decodeListWith dec n r with
      | some (vs, r2) => some (v :: vs, r2)
      | none => none
    | none => none

/-- Decode `n` consecutive key/value pairs with the given item decoder. -/
def decodePairsWith (dec : List Nat → Option (CborValue × List Nat)) :
    Nat → List Nat → Option (List (CborValue × CborValue) × List Nat)
  | 0, b => some ([], b)
  | n + 1, b =>
    match dec b with
    | some (k, r) =>
      match dec r with
      | some (v, r2) =>
        match decodePairsWith dec n r2 with
        | some (kvs, r3) => some ((k, v) :: kvs, r3)
        | none => none
      | none => none
    | none => none

/-- Models the CBOR item decoder underlying `serde_cbor_2::from_slice` on the
modelled subset; `fuel` bounds the nesting depth (any fuel beyond the input
length is enough). -/
def decodeV : Nat → List Nat → Option (CborValue × List Nat)
  | 0, _ => none
  | _ + 1, [] => none
  | fuel + 1, h :: rest =>
    let maj := h / 32
    let addl := h % 32
    if maj = 0 then
      (readArg addl rest).map (fun p => (.int (Int.ofNat p.1), p.2))
    else if maj = 1 then
      (readArg addl rest).map (fun p => (.int (-1 - Int.ofNat p.1), p.2))
    else if maj = 2 then
      match readArg addl rest with
      | some (n, r) => if n ≤ r.length then some (.bytes (r.take n), r.drop n) else none
      | none => none
    else if maj = 3 then
      match readArg addl rest with
      | some (n, r) => if n ≤ r.length then some (.text (r.take n), r.drop n) else none
      | none => none
    else if maj = 4 then
      match readArg addl rest with
      | some (n, r) => (decodeListWith (fun b2 => decodeV fuel b2) n r).map
          (fun p => (.array p.1, p.2))
      | none => none
    else if maj = 5 then
      match readArg addl rest with
      | some (n, r) => (decodePairsWith (fun b2 => decodeV fuel b2) n r).map
          (fun p => (.map p.1, p.2))
      | none => none
    else if maj = 7 then
      if addl = 20 then some (.bool false, rest)
      else if addl = 21 then some (.bool true, rest)
      else if addl = 22 then some (.null, rest)
      else none
    else none

/-- Models `serde_cbor_2::from_slice::<Value>`: decode one item and require
the input to be fully consumed. -/
def fromSlice (b : List Nat) : Option CborValue :=
  match decodeV (b.length + 1) b with
  | some (v, []) => some v
  | _ => none

/-- Minimal-length CBOR head for major type `maj` and argument `n`. -/
def encodeHead (maj n : Nat) : List Nat :=
  if n < 24 then [maj * 32 + n]
  else if n < 256 then [maj * 32 + 24, n]
  else if n < 65536 then [maj * 32 + 25, n / 256, n % 256]
  else [maj * 32 + 26, n / 16777216 % 256, n / 65536 % 256, n / 256 % 256, n % 256]

mutual
/-- Models `serde_cbor_2::to_vec` (canonical, minimal-length heads) on the
modelled subset.  The source's `to_vec` error branch is unreachable for the
values this program builds, so encoding is total here. -/
def cborEncode : CborValue → List Nat
  | .int i => if 0 ≤ i then encodeHead 0 i.toNat else encodeHead 1 (-1 - i).toNat
  | .bytes b => encodeHead 2 b.length ++ b
  | .text b => encodeHead 3 b.length ++ b
  | .array vs => encodeHead 4 vs.length ++ cborEncodeList vs
  | .map kvs => encodeHead 5 kvs.length ++ cborEncodePairs kvs
  | .bool false => [0xF4]
  | .bool true => [0xF5]
  | .null => [0xF6]

def cborEncodeList : List CborValue → List Nat
  | [] => []
  | v :: vs => cborEncode v ++ cborEncodeList vs

def cborEncodePairs : List (CborValue × CborValue) → List Nat
  | [] => []
  | (k, v) :: kvs => cborEncode k ++ cborEncode v ++ cborEncodePairs kvs
end

/-- Require every key and value of a CBOR map to be an integer. -/
def intPairs : List (CborValue × CborValue) → Option (List (Int × Int))
  | [] => some []
  | (.int k, .int v) :: rest => (intPairs rest).map (fun l => (k, v) :: l)
  | _ => none

/-- Models `serde_cbor_2::from_slice::<BTreeMap<i128, i128>>`: the input must
be a CBOR map whose keys and values are all integers. -/
def fromSliceIntMap (b : List Nat) : Option (List (Int × Int)) :=
  match fromSlice b with
  | some (.map kvs) => intPairs kvs
  | _ => none

/-- `BTreeMap::get` with an integer key, on a map built by inserting the pairs
in decode order (a later equal key overwrites an earlier one). -/
def lookupIntKeyLast (k : Int) (kvs : List (CborValue × CborValue)) : Option CborValue :=
  kvs.foldl (fun acc kv =>
    match kv.1 with
    | .int i => if i = k then some kv.2 else acc
    | _ => acc) none

/-- `BTreeMap::get` with a text key (the key's UTF-8 bytes), last insert wins. -/
def lookupTextKeyLast (s : List Nat) (kvs : List (CborValue × CborValue)) : Option CborValue :=
  kvs.foldl (fun acc kv =>
    match kv.1 with
    | .text t => if t = s then some kv.2 else acc
    | _ => acc) none

/-- `BTreeMap::get` on an integer-to-integer map, last insert wins. -/
def lookupIntPairLast (k : Int) (kvs : List (Int × Int)) : Option Int :=
  kvs.foldl (fun acc kv => if kv.1 = k then some kv.2 else acc) none

/- ===================== Protocol constants (fido/constants.rs, not in src/) ===================== -/

/-- Modelled from the spec: the CTAP-HID CBOR command byte used for standard
exchanges (`fido/constants.rs` is not part of src/; 0x10 is the CTAP-HID
standard value). -/
def CTAPHID_CBOR : Nat := 0x10

/-- Modelled from the spec: the vendor CBOR command byte — "one fixed byte
distinct from standard CTAP command codes"; its exact firmware-defined value is
not in src/ and no claim depends on it. -/
def CTAP_VENDOR_CBOR_CMD : Nat := 0x40

/-- Modelled from the spec: standard GetInfo uses CTAP command 0x04. -/
def CtapCommand.GetInfo : Nat := 0x04

/-- Modelled from the spec: vendor command byte `Memory = 0x06`. -/
def VendorCommand.Memory : Nat := 0x06

/-- Modelled from the spec: vendor command byte `PhysicalOptions = 0x05`. -/
def VendorCommand.PhysicalOptions : Nat := 0x05

/-- Modelled from the spec: the Memory GetStats sub-command integer, sent as
CBOR map value under key 1 (the source comment shows the map `{1: 1}`). -/
def MemorySubCommand.GetStats : Int := 1

/-- Modelled from the spec: the PhysicalOptions GetOptions sub-command integer,
sent as CBOR map value under key 1; its exact firmware-defined value is not in
src/ and no claim depends on it. -/
def PhysicalOptionsSubCommand.GetOptions : Int := 1

/-- Modelled from the spec: the integer response key for used flash bytes; the
exact value is not in src/ and no claim depends on it. -/
def MemoryResponseKey.UsedSpace : Int := 1

/-- Modelled from the spec: the integer response key for total flash bytes. -/
def MemoryResponseKey.TotalSpace : Int := 2

/- ===================== Device status aggregator (read_device_details) ===================== -/

/-- Embeds `crate::types::AppConfig` (its `types.rs` is not in src/; the fields
are the spec's section-3 list, always present on read-back). -/
structure AppConfig where
  vid : String
  pid : String
  product_name : String
  led_gpio : Nat
  led_brightness : Nat
  led_dimmable : Bool
  led_steady : Bool
  power_cycle_on_reset : Bool
  touch_timeout : Nat
  enable_secp256k1 : Bool
  led_driver : Nat
  deriving DecidableEq

/-- Modelled from the spec: `AppConfig`'s derived `Default` — empty strings,
zero numbers, false booleans. -/
def AppConfig.default : AppConfig :=
  { vid := "", pid := "", product_name := "", led_gpio := 0, led_brightness := 0,
    led_dimmable := false, led_steady := false, power_cycle_on_reset := false,
    touch_timeout := 0, enable_secp256k1 := false, led_driver := 0 }

/-- Embeds `crate::types::DeviceInfo` as populated by `read_device_details`. -/
structure DeviceInfo where
  serial : String
  flash_used : Nat
  flash_total : Nat
  firmware_version : String
  deriving DecidableEq

/-- Embeds `crate::types::FullDeviceStatus`. -/
structure FullDeviceStatus where
  info : DeviceInfo
  config : AppConfig
  secure_boot : Bool
  secure_lock : Bool
  method : String
  deriving DecidableEq

/-- Models the `HidTransport` handle of `fido/hid.rs` (not in src/): the
identity fields captured at open time plus the device's answer to each
`send_cbor(command, payload)` exchange. -/
structure HidTransport where
  vid : Nat
  pid : Nat
  product_name : String
  sendCbor : Nat → List Nat → Except String (List Nat)

/-- Models the `anyhow`-style error returned by `HidTransport::open`: the
result of `downcast_ref::<PFError>()` and the rendered message. -/
structure OpenErr where
  asPF : Option PFError
  msg : String

/-- The GetInfo payload `[CtapCommand::GetInfo as u8]` (fido/mod.rs 167). -/
def info_payload : List Nat := [CtapCommand.GetInfo]

/-- The Memory vendor payload: the vendor command byte prepended to the CBOR
map `{1: GetStats}` (fido/mod.rs 227-241). -/
def mem_payload : List Nat :=
  VendorCommand.Memory :: cborEncode (.map [(.int 1, .int MemorySubCommand.GetStats)])

/-- The PhysicalOptions vendor payload: the vendor command byte prepended to
the CBOR map `{1: GetOptions}` (fido/mod.rs 279-298). -/
def phy_payload : List Nat :=
  VendorCommand.PhysicalOptions ::
    cborEncode (.map [(.int 1, .int PhysicalOptionsSubCommand.GetOptions)])

/-- AAGUID extraction (fido/mod.rs 183-198): map key 0x03, bytes, upper hex;
anything else degrades to "Unknown". -/
def aaguidOf (v : CborValue) : String :=
  match v with
  | .map m =>
    match lookupIntKeyLast 3 m with
    | some (.bytes b) => hexEncodeUpper b
    | _ => "Unknown"
  | _ => "Unknown"

/-- Firmware-version extraction (fido/mod.rs 200-215): map key 0x0E, integer,
formatted `"{(i >> 8) & 0xFF}.{i & 0xFF}"` (arithmetic shift and mask on the
`i128`); anything else degrades to "Unknown". -/
def fwVersionOf (v : CborValue) : String :=
  match v with
  | .map m =>
    match lookupIntKeyLast 14 m with
    | some (.int i) => toString ((i.fdiv 256).emod 256) ++ "." ++ toString (i.emod 256)
    | _ => "Unknown"
  | _ => "Unknown"

/-- Memory statistics (fido/mod.rs 251-267): a non-empty response is parsed as
an integer map (unparsable degrades to empty), then the used/total values are
read with default 0 and cast `as u32`. -/
def memStatsOf (mem_res : List Nat) : Nat × Nat :=
  let mem_map := if mem_res.isEmpty then [] else (fromSliceIntMap mem_res).getD []
  let used := (((lookupIntPairLast MemoryResponseKey.UsedSpace mem_map).getD 0).emod
    4294967296).toNat
  let total := (((lookupIntPairLast MemoryResponseKey.TotalSpace mem_map).getD 0).emod
    4294967296).toNat
  (used, total)

/-- The UTF-8 bytes of the text key `"gpio"`. -/
def gpioKey : List Nat := [103, 112, 105, 111]

/-- The UTF-8 bytes of the text key `"brightness"`. -/
def brightnessKey : List Nat := [98, 114, 105, 103, 104, 116, 110, 101, 115, 115]

/-- Apply the `"gpio"` entry of the physical-options map, if present and an
integer (fido/mod.rs 319-321; `as u8` is a wrap to a byte). -/
def applyGpio (m : List (CborValue × CborValue)) (config : AppConfig) : AppConfig :=
  match lookupTextKeyLast gpioKey m with
  | some (.int v) => { config with led_gpio := (v.emod 256).toNat }
  | _ => config

/-- Apply the `"brightness"` entry of the physical-options map, if present and
an integer (fido/mod.rs 322-324). -/
def applyBrightness (m : List (CborValue × CborValue)) (config : AppConfig) : AppConfig :=
  match lookupTextKeyLast brightnessKey m with
  | some (.int v) => { config with led_brightness := (v.emod 256).toNat }
  | _ => config

/-- The physical-options handling of fido/mod.rs 315-327: only a response that
parses as a CBOR map is applied, and it can set only the two LED fields. -/
def applyPhy (phy_res : List Nat) (config : AppConfig) : AppConfig :=
  match fromSlice phy_res with
  | some (.map m) => applyBrightness m (applyGpio m config)
  | _ => config

/-- The open-failure mapping of fido/mod.rs 156-163: a wrapped
`PFError::NoDevice` is propagated unchanged, anything else becomes
`PFError::Device` with the rendered message. -/
def renderOpenErr (e : OpenErr) : PFError :=
  if e.asPF = some PFError.NoDevice then PFError.NoDevice else PFError.Device e.msg

/-- Embeds `read_device_details` (fido/mod.rs 153-343).  The second component
is the ordered list of `(command, payload)` pairs handed to
`transport.send_cbor`. -/
def read_device_details (openResult : Except OpenErr HidTransport) :
    Except PFError FullDeviceStatus × List (Nat × List Nat) :=
  match openResult with
  | .error e => (.error (renderOpenErr e), [])
  | .ok transport =>
    match transport.sendCbor CTAPHID_CBOR info_payload with
    | .error e => (.error (.Device ("GetInfo failed: " ++ e)), [(CTAPHID_CBOR, info_payload)])
    | .ok info_res =>
      match fromSlice info_res with
      | none => (.error (.Io "CBOR parse error"), [(CTAPHID_CBOR, info_payload)])
      | some info_val =>
        let _aaguid_str := aaguidOf info_val
        let fw_version := fwVersionOf info_val
        let mem_res := match transport.sendCbor CTAP_VENDOR_CBOR_CMD mem_payload with
          | .ok r => r
          | .error _ => []
        let stats := memStatsOf mem_res
        let phy_res := match transport.sendCbor CTAP_VENDOR_CBOR_CMD phy_payload with
          | .ok r => r
          | .error _ => []
        let base : AppConfig :=
          { AppConfig.default with
            vid := format04X transport.vid
            pid := format04X transport.pid
            product_name := transport.product_name }
        let config := applyPhy phy_res base
        (.ok { info := { serial := "?", flash_used := stats.1 / 1024,
                         flash_total := stats.2 / 1024, firmware_version := fw_version },
               config := config, secure_boot := false, secure_lock := false,
               method := "FIDO" },
         [(CTAPHID_CBOR, info_payload), (CTAP_VENDOR_CBOR_CMD, mem_payload),
          (CTAP_VENDOR_CBOR_CMD, phy_payload)])

/- ===================== C3: NoDevice propagation ===================== -/

/-- C3 (behavioral part): when opening the transport fails with the wrapped
`NoDevice` error, `read_device_details` returns `PFError.NoDevice` unchanged
(and performs no exchange).  Note `NoDevice` itself is spec-modelled: the enum
in src/error.rs does not declare it although fido/mod.rs requires it. -/
theorem read_device_details_nodevice (e : OpenErr)
    (h : e.asPF = some PFError.NoDevice) :
    read_device_details (.error e) = (.error PFError.NoDevice, []) := by
  simp [read_device_details, renderOpenErr, h]

/-- C3 witness: the propagation at a concrete open failure. -/
theorem read_device_details_nodevice_witness :
    read_device_details (.error { asPF := some PFError.NoDevice, msg := "no FIDO device" }) =
      (.error PFError.NoDevice, []) :=
  read_device_details_nodevice { asPF := some PFError.NoDevice, msg := "no FIDO device" } rfl

/- ===================== C2: vendor-exchange degradation ===================== -/

theorem memStatsOf_unparsable (r : List Nat) (h : fromSliceIntMap r = none) :
    memStatsOf r = (0, 0) := by
  have hmap : (if r.isEmpty then ([] : List (Int × Int)) else (fromSliceIntMap r).getD []) = [] := by
    cases r.isEmpty <;> simp [h]
  unfold memStatsOf
  rw [hmap]
  rfl

theorem applyPhy_not_map (r : List Nat) (cfg : AppConfig)
    (h : ∀ m, fromSlice r ≠ some (.map m)) : applyPhy r cfg = cfg := by
  unfold applyPhy
  rcases hv : fromSlice r with _ | x
  · rfl
  · cases x with
    | map m => exact absurd hv (h m)
    | int i => rfl
    | bytes b => rfl
    | text b => rfl
    | array vs => rfl
    | bool b => rfl
    | null => rfl

/-- C2 (amended): with the transport open, (a) whenever the GetInfo exchange
succeeds and its response parses as CBOR, failure, emptiness or unparsability
of both vendor exchanges still yields `Ok`, with both flash fields 0 and the
config at type defaults except the identity fields `vid`/`pid`/`product_name`,
which always carry the transport handle's identity; and (b) a GetInfo
transport failure makes the whole call return an error. -/
theorem read_device_details_degraded (t : HidTransport) :
    (∀ (info_res : List Nat) (v : CborValue),
      t.sendCbor CTAPHID_CBOR info_payload = .ok info_res →
      fromSlice info_res = some v →
      ((∃ e, t.sendCbor CTAP_VENDOR_CBOR_CMD mem_payload = .error e) ∨
        t.sendCbor CTAP_VENDOR_CBOR_CMD mem_payload = .ok [] ∨
        (∃ r, t.sendCbor CTAP_VENDOR_CBOR_CMD mem_payload = .ok r ∧
          fromSliceIntMap r = none)) →
      ((∃ e, t.sendCbor CTAP_VENDOR_CBOR_CMD phy_payload = .error e) ∨
        (∃ r, t.sendCbor CTAP_VENDOR_CBOR_CMD phy_payload = .ok r ∧
          ∀ m, fromSlice r ≠ some (.map m))) →
      ∃ st, (read_device_details (.ok t)).1 = .ok st ∧
        st.info.flash_used = 0 ∧ st.info.flash_total = 0 ∧
        st.config = { AppConfig.default with
                      vid := format04X t.vid
                      pid := format04X t.pid
                      product_name := t.product_name }) ∧
    (∀ e, t.sendCbor CTAPHID_CBOR info_payload = .error e →
      (read_device_details (.ok t)).1 = .error (.Device ("GetInfo failed: " ++ e))) := by
  constructor
  · intro info_res v hinfo hv hmem hphy
    have hmem' : memStatsOf (match t.sendCbor CTAP_VENDOR_CBOR_CMD mem_payload with
        | .ok r => r
        | .error _ => []) = (0, 0) := by
      rcases hmem with ⟨e, he⟩ | he | ⟨r, hr, hparse⟩
      · rw [he]; rfl
      · rw [he]; rfl
      · rw [hr]
        exact memStatsOf_unparsable r hparse
    have hphy' : ∀ cfg, applyPhy (match t.sendCbor CTAP_VENDOR_CBOR_CMD phy_payload with
        | .ok r => r
        | .error _ => []) cfg = cfg := by
      intro cfg
      rcases hphy with ⟨e, he⟩ | ⟨r, hr, hm⟩
      · rw [he]; rfl
      · rw [hr]
        exact applyPhy_not_map r cfg hm
    unfold read_device_details
    simp only [hinfo, hv, hmem', hphy']
    exact ⟨_, rfl, rfl, rfl, rfl⟩
  · intro e he
    unfold read_device_details
    simp only [he]

/-- A transport whose identity is vid 0x20A0 / pid 0x42D4 / name "Pico", whose
GetInfo answer is the empty CBOR map and whose vendor exchanges fail. -/
def cexTransport : HidTransport :=
  { vid := 0x20A0, pid := 0x42D4, product_name := "Pico",
    sendCbor := fun c _ => if c = CTAPHID_CBOR then .ok [0xA0] else .error "vendor unsupported" }

/-- C2 counterexample: GetInfo succeeds (and parses), both vendor exchanges
fail, the call returns Ok with flash fields 0 — but the returned AppConfig is
not at its type defaults: vid/pid/product_name carry the transport identity. -/
theorem read_device_details_identity_counterexample :
    cexTransport.sendCbor CTAPHID_CBOR info_payload = .ok [0xA0] ∧
    cexTransport.sendCbor CTAP_VENDOR_CBOR_CMD mem_payload = .error "vendor unsupported" ∧
    cexTransport.sendCbor CTAP_VENDOR_CBOR_CMD phy_payload = .error "vendor unsupported" ∧
    (read_device_details (.ok cexTransport)).1 =
      .ok { info := { serial := "?", flash_used := 0, flash_total := 0,
                      firmware_version := "Unknown" },
            config := { AppConfig.default with
                        vid := "20A0"
                        pid := "42D4"
                        product_name := "Pico" },
            secure_boot := false, secure_lock := false, method := "FIDO" } ∧
    ({ AppConfig.default with
       vid := "20A0"
       pid := "42D4"
       product_name := "Pico" } : AppConfig) ≠ AppConfig.default := by
  refine ⟨rfl, rfl, rfl, rfl, by decide⟩

/-- C2 witness: the amended theorem applied at the concrete degraded device. -/
theorem read_device_details_degraded_witness :
    ∃ st, (read_device_details (.ok cexTransport)).1 = .ok st ∧
      st.info.flash_used = 0 ∧ st.info.flash_total = 0 ∧
      st.config = { AppConfig.default with
                    vid := format04X cexTransport.vid
                    pid := format04X cexTransport.pid
                    product_name := cexTransport.product_name } :=
  (read_device_details_degraded cexTransport).1 [0xA0] (.map []) rfl rfl
    (Or.inl ⟨"vendor unsupported", rfl⟩) (Or.inl ⟨"vendor unsupported", rfl⟩)

/- ===================== C6: vendor payload framing ===================== -/

/-- C6: whenever the vendor exchanges are reached, the payloads handed to the
transport are exactly one leading vendor-command byte (Memory 0x06,
PhysicalOptions 0x05) followed by the canonical CBOR serialization of the
single-entry map `{1: sub-command}` — the command byte is never folded into
the CBOR structure; concretely, the bytes are `[0x06, 0xA1, 0x01, sub]` and
`[0x05, 0xA1, 0x01, sub]`. -/
theorem vendor_payload_framing (t : HidTransport) (info_res : List Nat) (v : CborValue)
    (hinfo : t.sendCbor CTAPHID_CBOR info_payload = .ok info_res)
    (hv : fromSlice info_res = some v) :
    (read_device_details (.ok t)).2 =
      [(CTAPHID_CBOR, info_payload),
       (CTAP_VENDOR_CBOR_CMD, VendorCommand.Memory ::
         cborEncode (.map [(.int 1, .int MemorySubCommand.GetStats)])),
       (CTAP_VENDOR_CBOR_CMD, VendorCommand.PhysicalOptions ::
         cborEncode (.map [(.int 1, .int PhysicalOptionsSubCommand.GetOptions)]))] ∧
    mem_payload = 0x06 :: [0xA1, 0x01, 0x01] ∧
    phy_payload = 0x05 :: [0xA1, 0x01, 0x01] := by
  refine ⟨?_, rfl, rfl⟩
  unfold read_device_details
  simp only [hinfo, hv]
  rfl

/-- C6 witness: the framing at a concrete transport. -/
theorem vendor_payload_framing_witness :
    (read_device_details (.ok cexTransport)).2 =
      [(CTAPHID_CBOR, info_payload),
       (CTAP_VENDOR_CBOR_CMD, VendorCommand.Memory ::
         cborEncode (.map [(.int 1, .int MemorySubCommand.GetStats)])),
       (CTAP_VENDOR_CBOR_CMD, VendorCommand.PhysicalOptions ::
         cborEncode (.map [(.int 1, .int PhysicalOptionsSubCommand.GetOptions)]))] ∧
    mem_payload = 0x06 :: [0xA1, 0x01, 0x01] ∧
    phy_payload = 0x05 :: [0xA1, 0x01, 0x01] :=
  vendor_payload_framing cexTransport [0xA0] (.map []) rfl rfl

/- ===================== C10: frame of the returned status ===================== -/

theorem applyGpio_frame (m : List (CborValue × CborValue)) (cfg : AppConfig) :
    (applyGpio m cfg).vid = cfg.vid ∧ (applyGpio m cfg).pid = cfg.pid ∧
    (applyGpio m cfg).product_name = cfg.product_name ∧
    (applyGpio m cfg).led_dimmable = cfg.led_dimmable ∧
    (applyGpio m cfg).led_steady = cfg.led_steady ∧
    (applyGpio m cfg).power_cycle_on_reset = cfg.power_cycle_on_reset ∧
    (applyGpio m cfg).touch_timeout = cfg.touch_timeout ∧
    (applyGpio m cfg).enable_secp256k1 = cfg.enable_secp256k1 ∧
    (applyGpio m cfg).led_driver = cfg.led_driver := by
  unfold applyGpio
  rcases lookupTextKeyLast gpioKey m with _ | y
  · exact ⟨rfl, rfl, rfl, rfl, rfl, rfl, rfl, rfl, rfl⟩
  · cases y <;> exact ⟨rfl, rfl, rfl, rfl, rfl, rfl, rfl, rfl, rfl⟩

theorem applyBrightness_frame (m : List (CborValue × CborValue)) (cfg : AppConfig) :
    (applyBrightness m cfg).vid = cfg.vid ∧ (applyBrightness m cfg).pid = cfg.pid ∧
    (applyBrightness m cfg).product_name = cfg.product_name ∧
    (applyBrightness m cfg).led_dimmable = cfg.led_dimmable ∧
    (applyBrightness m cfg).led_steady = cfg.led_steady ∧
    (applyBrightness m cfg).power_cycle_on_reset = cfg.power_cycle_on_reset ∧
    (applyBrightness m cfg).touch_timeout = cfg.touch_timeout ∧
    (applyBrightness m cfg).enable_secp256k1 = cfg.enable_secp256k1 ∧
    (applyBrightness m cfg).led_driver = cfg.led_driver := by
  unfold applyBrightness
  rcases lookupTextKeyLast brightnessKey m with _ | y
  · exact ⟨rfl, rfl, rfl, rfl, rfl, rfl, rfl, rfl, rfl⟩
  · cases y <;> exact ⟨rfl, rfl, rfl, rfl, rfl, rfl, rfl, rfl, rfl⟩

/-- The physical-options application can change only `led_gpio` and
`led_brightness`; every other field of the configuration passes through. -/
theorem applyPhy_frame (r : List Nat) (cfg : AppConfig) :
    (applyPhy r cfg).vid = cfg.vid ∧ (applyPhy r cfg).pid = cfg.pid ∧
    (applyPhy r cfg).product_name = cfg.product_name ∧
    (applyPhy r cfg).led_dimmable = cfg.led_dimmable ∧
    (applyPhy r cfg).led_steady = cfg.led_steady ∧
    (applyPhy r cfg).power_cycle_on_reset = cfg.power_cycle_on_reset ∧
    (applyPhy r cfg).touch_timeout = cfg.touch_timeout ∧
    (applyPhy r cfg).enable_secp256k1 = cfg.enable_secp256k1 ∧
    (applyPhy r cfg).led_driver = cfg.led_driver := by
  unfold applyPhy
  rcases fromSlice r with _ | x
  · exact ⟨rfl, rfl, rfl, rfl, rfl, rfl, rfl, rfl, rfl⟩
  · cases x with
    | map m =>
      obtain ⟨g1, g2, g3, g4, g5, g6, g7, g8, g9⟩ := applyGpio_frame m cfg
      obtain ⟨b1, b2, b3, b4, b5, b6, b7, b8, b9⟩ :=
        applyBrightness_frame m (applyGpio m cfg)
      exact ⟨b1.trans g1, b2.trans g2, b3.trans g3, b4.trans g4, b5.trans g5,
        b6.trans g6, b7.trans g7, b8.trans g8, b9.trans g9⟩
    | int i => exact ⟨rfl, rfl, rfl, rfl, rfl, rfl, rfl, rfl, rfl⟩
    | bytes b => exact ⟨rfl, rfl, rfl, rfl, rfl, rfl, rfl, rfl, rfl⟩
    | text b => exact ⟨rfl, rfl, rfl, rfl, rfl, rfl, rfl, rfl, rfl⟩
    | array vs => exact ⟨rfl, rfl, rfl, rfl, rfl, rfl, rfl, rfl, rfl⟩
    | bool b => exact ⟨rfl, rfl, rfl, rfl, rfl, rfl, rfl, rfl, rfl⟩
    | null => exact ⟨rfl, rfl, rfl, rfl, rfl, rfl, rfl, rfl, rfl⟩

/-- C10: in every Ok status returned by `read_device_details`, the config's
vid/pid are the transport handle's ids in 4-digit upper hex and the product
name is the handle's product string; whatever the PhysicalOptions response
contains, every AppConfig field other than `led_gpio`/`led_brightness` keeps
its Default value; and the status always carries serial "?", secure_boot
false, secure_lock false and method "FIDO". -/
theorem read_device_details_frame (t : HidTransport) (st : FullDeviceStatus)
    (tr : List (Nat × List Nat))
    (h : read_device_details (.ok t) = (.ok st, tr)) :
    st.config.vid = format04X t.vid ∧
    st.config.pid = format04X t.pid ∧
    st.config.product_name = t.product_name ∧
    st.config.led_dimmable = AppConfig.default.led_dimmable ∧
    st.config.led_steady = AppConfig.default.led_steady ∧
    st.config.power_cycle_on_reset = AppConfig.default.power_cycle_on_reset ∧
    st.config.touch_timeout = AppConfig.default.touch_timeout ∧
    st.config.enable_secp256k1 = AppConfig.default.enable_secp256k1 ∧
    st.config.led_driver = AppConfig.default.led_driver ∧
    st.info.serial = "?" ∧
    st.secure_boot = false ∧ st.secure_lock = false ∧ st.method = "FIDO" := by
  unfold read_device_details at h
  rcases hsend : t.sendCbor CTAPHID_CBOR info_payload with e | info_res
  · simp only [hsend] at h
    simp at h
  · simp only [hsend] at h
    rcases hparse : fromSlice info_res with _ | v
    · simp only [hparse] at h
      simp at h
    · simp only [hparse] at h
      injection h with h1 _
      injection h1 with h1
      subst h1
      obtain ⟨f1, f2, f3, f4, f5, f6, f7, f8, f9⟩ := applyPhy_frame
        (match t.sendCbor CTAP_VENDOR_CBOR_CMD phy_payload with
          | .ok r => r
          | .error _ => [])
        { AppConfig.default with
          vid := format04X t.vid
          pid := format04X t.pid
          product_name := t.product_name }
      exact ⟨f1, f2, f3, f4, f5, f6, f7, f8, f9, rfl, rfl, rfl, rfl⟩

/-- C10 witness: the frame facts at a concrete transport. -/
theorem read_device_details_frame_witness :
    ({ AppConfig.default with
       vid := "20A0"
       pid := "42D4"
       product_name := "Pico" } : AppConfig).vid = format04X cexTransport.vid ∧
    ({ AppConfig.default with
       vid := "20A0"
       pid := "42D4"
       product_name := "Pico" } : AppConfig).pid = format04X cexTransport.pid ∧
    ({ AppConfig.default with
       vid := "20A0"
       pid := "42D4"
       product_name := "Pico" } : AppConfig).product_name = cexTransport.product_name ∧
    ({ AppConfig.default with
       vid := "20A0"
       pid := "42D4"
       product_name := "Pico" } : AppConfig).led_dimmable = AppConfig.default.led_dimmable ∧
    ({ AppConfig.default with
       vid := "20A0"
       pid := "42D4"
       product_name := "Pico" } : AppConfig).led_steady = AppConfig.default.led_steady ∧
    ({ AppConfig.default with
       vid := "20A0"
       pid := "42D4"
       product_name := "Pico" } : AppConfig).power_cycle_on_reset =
      AppConfig.default.power_cycle_on_reset ∧
    ({ AppConfig.default with
       vid := "20A0"
       pid := "42D4"
       product_name := "Pico" } : AppConfig).touch_timeout = AppConfig.default.touch_timeout ∧
    ({ AppConfig.default with
       vid := "20A0"
       pid := "42D4"
       product_name := "Pico" } : AppConfig).enable_secp256k1 =
      AppConfig.default.enable_secp256k1 ∧
    ({ AppConfig.default with
       vid := "20A0"
       pid := "42D4"
       product_name := "Pico" } : AppConfig).led_driver = AppConfig.default.led_driver ∧
    ({ serial := "?", flash_used := 0, flash_total := 0,
       firmware_version := "Unknown" } : DeviceInfo).serial = "?" ∧
    false = false ∧ false = false ∧ "FIDO" = "FIDO" :=
  read_device_details_frame cexTransport
    { info := { serial := "?", flash_used := 0, flash_total := 0, firmware_version := "Unknown" },
      config := { AppConfig.default with
                  vid := "20A0"
                  pid := "42D4"
                  product_name := "Pico" },
      secure_boot := false, secure_lock := false, method := "FIDO" }
    [(CTAPHID_CBOR, info_payload), (CTAP_VENDOR_CBOR_CMD, mem_payload),
     (CTAP_VENDOR_CBOR_CMD, phy_payload)] rfl
